import Mathlib

/-! The single-slot memory-stick read cache of `SystemControl/msstor_cache.c`.

A shallow embedding of the cache that PRO CFW installs in front of the
memory-stick block driver, and the properties of it that its specification
states.

Conventions of the embedding.

* Machine integers are mathematical integers with the wrap written out:
  `toInt32` is the conversion to `int`, `toSceOff` the conversion to the 64-bit
  `SceOff`, `toU32` the conversion to `u32`.  Signed additions that the source
  performs in `int` or in `SceOff` are wrapped the same way (two's complement,
  what the target's `addu` does).
* Memory is a total function from offsets to bytes; a pointer into a buffer is
  the buffer shifted by the offset (`ptr_add`).  `memcpy` with a negative count
  copies nothing in the model.
* The three driver entry points saved by `msstor_init` are the fields of a
  `Driver`, acting on an abstract driver state.  The debug lines that the read
  path writes with `sceIoWrite(1, ..)` and `printk` touch neither the cache nor
  the driver and are left out; the report of `msstor_stat` is returned as text.
* `ReadResult.path` is a ghost field recording which branch of
  `msstor_cache_read` ran.
-/

namespace MsstorCache

/-! ## Machine integers -/

/-- Conversion of an integer value to `int` (32-bit two's complement). -/
def toInt32 (x : Int) : Int := (x + 2147483648) % 4294967296 - 2147483648

/-- Conversion of an integer value to `SceOff` (64-bit two's complement). -/
def toSceOff (x : Int) : Int :=
  (x + 9223372036854775808) % 18446744073709551616 - 9223372036854775808

/-- Conversion of an integer value to `u32`. -/
def toU32 (x : Int) : Int := x % 4294967296

/-- Modelled from the spec: the `MIN` macro of `utils.h`, which is not among the
sources; the spec writes it `min(len, b + C - pos)` and `min(len, n)`. -/
def MIN (a b : Int) : Int := if a < b then a else b

/-- Modelled from the spec: the seek origin "Absolute" of the backend contract,
with the value the SDK header gives `PSP_SEEK_SET`. -/
def PSP_SEEK_SET : Int := 0

/-- Modelled from the spec: the seek origin "Current" of the backend contract,
with the value the SDK header gives `PSP_SEEK_CUR`. -/
def PSP_SEEK_CUR : Int := 1

/-! ## Memory -/

/-- A region of memory seen from a pointer: the byte at each offset. -/
abbrev Buffer := Int → UInt8

/-- The pointer `p + off`. -/
def ptr_add (p : Buffer) (off : Int) : Buffer := fun i => p (off + i)

/-- The destination after `memcpy(dst, src, n)`. -/
def memcpy (dst src : Buffer) (n : Int) : Buffer :=
  fun i => if 0 ≤ i ∧ i < n then src i else dst i

/-! ## Globals -/

/-- The value of `CACHE_BUFSIZE`. -/
def CACHE_BUFSIZE : Int := 16 * 1024

/-- The value of `CACHE_BUFSIZE_GO`. -/
def CACHE_BUFSIZE_GO : Int := 8 * 1024

/-- The `struct MsCache`: `buf` is the memory at the slot's buffer pointer,
`pos` is the base offset, `-1` meaning invalid. -/
structure MsCache where
  buf : Buffer
  bufsize : Int
  pos : Int
  age : Int

/-- The file's static variables: the slot `g_cache` and the four `u32`
counters. -/
structure Globals where
  g_cache : MsCache
  read_call : Int
  read_hit : Int
  read_missed : Int
  read_uncacheable : Int

/-! ## The backend driver -/

/-- The saved entry points `msstor_read`, `msstor_write` and `msstor_lseek` of
the wrapped driver, over the driver's own state.  A read is given the memory at
the destination pointer and returns it as the driver left it. -/
structure Driver (σ : Type) where
  msstor_read : σ → Buffer → Int → σ × Buffer × Int
  msstor_write : σ → Buffer → Int → σ × Int
  msstor_lseek : σ → Int → Int → σ × Int

/-- One call of a driver entry point, with its arguments and its result. -/
inductive Call where
  | lseek (ofs whence result : Int)
  | read (len result : Int)
  | write (len result : Int)
  deriving DecidableEq, Repr

/-- Whether a logged call is a call of the driver's read. -/
def Call.isRead : Call → Bool
  | .read _ _ => true
  | _ => false

/-- Whether a logged call is a call of the driver's write. -/
def Call.isWrite : Call → Bool
  | .write _ _ => true
  | _ => false

/-- Whether a logged call is a call of the driver's seek. -/
def Call.isSeek : Call → Bool
  | .lseek _ _ _ => true
  | _ => false

/-- The same driver, logging every call of an entry point (oldest first). -/
def traced {σ : Type} (d : Driver σ) : Driver (σ × List Call) where
  msstor_read := fun st buf len =>
    let r := d.msstor_read st.1 buf len
    ((r.1, st.2 ++ [Call.read len r.2.2]), r.2.1, r.2.2)
  msstor_write := fun st buf len =>
    let r := d.msstor_write st.1 buf len
    ((r.1, st.2 ++ [Call.write len r.2]), r.2)
  msstor_lseek := fun st ofs whence =>
    let r := d.msstor_lseek st.1 ofs whence
    ((r.1, st.2 ++ [Call.lseek ofs whence r.2]), r.2)

/-! ## The hit test and invalidation -/

/-- The function `is_within_range(int pos, int start, int len)`; the sum
`start + len` is an `int` addition. -/
def is_within_range (pos start len : Int) : Bool :=
  decide (pos ≥ start ∧ pos < toInt32 (start + len))

/-- The function `get_hit_cache(SceOff pos, int len)`: the slot, or nothing for
`NULL`.  The `SceOff` arguments of `is_within_range` are converted to its `int`
parameters. -/
def get_hit_cache (g : Globals) (pos len : Int) : Option MsCache :=
  if g.g_cache.pos ≠ -1 then
    if is_within_range (toInt32 pos) (toInt32 g.g_cache.pos) g.g_cache.bufsize
        && is_within_range (toInt32 (toSceOff (pos + len))) (toInt32 g.g_cache.pos)
            g.g_cache.bufsize then
      some g.g_cache
    else none
  else none

/-- The function `disable_cache`. -/
def disable_cache (cache : MsCache) : MsCache := { cache with pos := -1 }

/-- The function `disable_cache_within_range(SceOff pos, int len)`: three tests
in sequence, each on the slot as the previous one left it. -/
def disable_cache_within_range (g : Globals) (pos len : Int) : Globals :=
  if g.g_cache.pos ≠ -1 then
    let g1 :=
      if is_within_range (toInt32 pos) (toInt32 g.g_cache.pos) g.g_cache.bufsize then
        { g with g_cache := disable_cache g.g_cache }
      else g
    let g2 :=
      if is_within_range (toInt32 (toSceOff (pos + len))) (toInt32 g1.g_cache.pos)
          g1.g_cache.bufsize then
        { g1 with g_cache := disable_cache g1.g_cache }
      else g1
    if pos ≤ g2.g_cache.pos
        ∧ toSceOff (pos + len) ≥ toSceOff (g2.g_cache.pos + g2.g_cache.bufsize) then
      { g2 with g_cache := disable_cache g2.g_cache }
    else g2
  else g

/-! ## The intercepted read and write -/

/-- The branch of `msstor_cache_read` that ran. -/
inductive Path where
  | hit
  | miss
  | uncacheable
  deriving DecidableEq, Repr

/-- What a call of `msstor_cache_read` leaves: the value returned, the caller's
buffer, the globals, the driver's state, and the branch taken. -/
structure ReadResult (σ : Type) where
  ret : Int
  data : Buffer
  g : Globals
  drv : σ
  path : Path

/-- What a call of `msstor_cache_write` leaves. -/
structure WriteResult (σ : Type) where
  ret : Int
  g : Globals
  drv : σ

/-- The function `msstor_cache_read(arg, data, len)`. -/
def msstor_cache_read {σ : Type} (d : Driver σ) (g : Globals) (s : σ) (data : Buffer)
    (len : Int) : ReadResult σ :=
  let sk := d.msstor_lseek s 0 PSP_SEEK_CUR
  let pos := sk.2
  match get_hit_cache g pos len with
  | some cache =>
    let read_len := toInt32 (MIN len (toSceOff (toSceOff (cache.pos + cache.bufsize) - pos)))
    let data1 := memcpy data (ptr_add cache.buf (pos - cache.pos)) read_len
    let ret := read_len
    let sk2 := d.msstor_lseek sk.1 (toSceOff (pos + ret)) PSP_SEEK_SET
    { ret := ret
      data := data1
      g := { g with read_hit := toU32 (g.read_hit + len),
                    read_call := toU32 (g.read_call + len) }
      drv := sk2.1
      path := Path.hit }
  | none =>
    let cache := g.g_cache
    if len ≤ cache.bufsize then
      let cache1 := disable_cache cache
      let rd := d.msstor_read sk.1 cache1.buf cache1.bufsize
      let cache2 := { cache1 with buf := rd.2.1 }
      let ret := rd.2.2
      if ret ≥ 0 then
        let read_len := MIN len ret
        let data1 := memcpy data cache2.buf read_len
        let ret1 := read_len
        let cache3 := { cache2 with pos := pos }
        let sk2 := d.msstor_lseek rd.1 (toSceOff (pos + ret1)) PSP_SEEK_SET
        { ret := ret1
          data := data1
          g := { g with g_cache := cache3,
                        read_missed := toU32 (g.read_missed + len),
                        read_call := toU32 (g.read_call + len) }
          drv := sk2.1
          path := Path.miss }
      else
        { ret := ret
          data := data
          g := { g with g_cache := cache2,
                        read_missed := toU32 (g.read_missed + len),
                        read_call := toU32 (g.read_call + len) }
          drv := rd.1
          path := Path.miss }
    else
      let rd := d.msstor_read sk.1 data len
      { ret := rd.2.2
        data := rd.2.1
        g := { g with read_uncacheable := toU32 (g.read_uncacheable + len),
                      read_call := toU32 (g.read_call + len) }
        drv := rd.1
        path := Path.uncacheable }

/-- The function `msstor_cache_write(arg, data, len)`. -/
def msstor_cache_write {σ : Type} (d : Driver σ) (g : Globals) (s : σ) (data : Buffer)
    (len : Int) : WriteResult σ :=
  let sk := d.msstor_lseek s 0 PSP_SEEK_CUR
  let pos := sk.2
  let g1 := disable_cache_within_range g pos len
  let wr := d.msstor_write sk.1 data len
  { ret := wr.2, g := g1, drv := wr.1 }

/-! ## The report -/

/-- The character of one digit, upper case above nine as `%X` prints it. -/
def digitChar (d : Nat) : Char :=
  match d with
  | 0 => '0' | 1 => '1' | 2 => '2' | 3 => '3' | 4 => '4' | 5 => '5' | 6 => '6' | 7 => '7'
  | 8 => '8' | 9 => '9' | 10 => 'A' | 11 => 'B' | 12 => 'C' | 13 => 'D' | 14 => 'E'
  | _ => 'F'

/-- The digits of `n` in the given base, most significant first; `fuel` bounds
their number (twenty is enough for every 64-bit value). -/
def natDigits (base : Nat) : Nat → Nat → List Char
  | 0, _ => []
  | fuel + 1, n =>
    if n < base then [digitChar n]
    else natDigits base fuel (n / base) ++ [digitChar (n % base)]

/-- The digits padded with zeros on the left to at least `width` characters. -/
def zeroPad (width : Nat) (cs : List Char) : List Char :=
  List.replicate (width - cs.length) '0' ++ cs

/-- What `sprintf` writes for `%d`. -/
def fmt_d (x : Int) : String :=
  if x < 0 then String.mk ('-' :: natDigits 10 20 x.natAbs)
  else String.mk (natDigits 10 20 x.natAbs)

/-- What `sprintf` writes for `%02d`: the sign counts towards the width. -/
def fmt_02d (x : Int) : String :=
  if x < 0 then String.mk ('-' :: zeroPad 1 (natDigits 10 20 x.natAbs))
  else String.mk (zeroPad 2 (natDigits 10 20 x.natAbs))

/-- What `sprintf` writes for `%08X`. -/
def fmt_08X (x : Int) : String :=
  String.mk (zeroPad 8 (natDigits 16 20 x.natAbs))

/-- One percentage of the report, `(int)(100 * counter / read_call)` with the
product and the quotient computed in `u32`. -/
def stat_percent (counter read_call : Int) : Int :=
  toInt32 (toU32 (100 * counter) / read_call)

/-- The function `msstor_stat(reset)`: the text written to the standard output
and the globals it leaves. -/
def msstor_stat (g : Globals) (reset : Int) : String × Globals :=
  let text :=
    if g.read_call ≠ 0 then
      "Mstor cache size: " ++ fmt_d (Int.tdiv g.g_cache.bufsize 1024) ++ "KB\n"
        ++ ("hit percent: " ++ fmt_02d (stat_percent g.read_hit g.read_call) ++ "%/"
          ++ fmt_02d (stat_percent g.read_missed g.read_call) ++ "%/"
          ++ fmt_02d (stat_percent g.read_uncacheable g.read_call) ++ "%, ["
          ++ fmt_d (toInt32 g.read_hit) ++ "/" ++ fmt_d (toInt32 g.read_missed) ++ "/"
          ++ fmt_d (toInt32 g.read_uncacheable) ++ "/" ++ fmt_d (toInt32 g.read_call)
          ++ "]\n")
        ++ "caches stat:\n"
        ++ ("Cache Pos: 0x" ++ fmt_08X (toU32 g.g_cache.pos) ++ "\n")
    else
      "no msstor cache call yet\n"
  let g1 :=
    if reset ≠ 0 then
      { g with read_call := 0, read_hit := 0, read_missed := 0, read_uncacheable := 0 }
    else g
  (text, g1)

/-! ## Initialisation -/

/-- What `msstor_init` consults outside this file: the model and its `PSP_GO`
value, the kernel allocator, the memory by address, the boot device and the
driver lookup (whether a driver of the given name is registered). -/
structure InitEnv where
  psp_model : Int
  PSP_GO : Int
  sceKernelAllocPartitionMemory : Int → Int
  sceKernelGetBlockHeadAddr : Int → Int
  memory : Buffer
  sctrlKernelBootFrom : Int
  sctrlHENFindDriver : String → Bool

/-- What `msstor_init` leaves: the value returned, the globals, and the name of
the driver whose read and write entries were replaced, if any. -/
structure InitResult where
  ret : Int
  g : Globals
  hooked : Option String

/-- The function `msstor_init()`. -/
def msstor_init (env : InitEnv) (g : Globals) : InitResult :=
  let bufsize := if env.psp_model = env.PSP_GO then CACHE_BUFSIZE_GO else CACHE_BUFSIZE
  if Int.tmod bufsize 512 ≠ 0 then
    { ret := -1, g := g, hooked := none }
  else
    let memid := env.sceKernelAllocPartitionMemory (bufsize + 64)
    if memid < 0 then
      { ret := -2, g := g, hooked := none }
    else
      let addr := env.sceKernelGetBlockHeadAddr memid
      let g1 := { g with g_cache := { g.g_cache with buf := ptr_add env.memory addr } }
      if addr = 0 then
        { ret := -3, g := g1, hooked := none }
      else
        let addr1 := toU32 ((toU32 addr - toU32 addr % 64) + 64)
        let g2 := { g1 with g_cache := { g1.g_cache with buf := ptr_add env.memory addr1,
                                                         bufsize := bufsize,
                                                         pos := -1 } }
        let name :=
          if env.psp_model = env.PSP_GO ∧ env.sctrlKernelBootFrom = 80 then "eflash0a0f1p"
          else "msstor0p"
        if env.sctrlHENFindDriver name = false then
          { ret := -4, g := g2, hooked := none }
        else
          { ret := 0, g := g2, hooked := some name }

/-- The globals as the loader leaves them before `msstor_init`: static storage
is zeroed, the buffer pointer is `NULL`. -/
def g_static (memory : Buffer) : Globals :=
  { g_cache := { buf := ptr_add memory 0, bufsize := 0, pos := 0, age := 0 }
    read_call := 0, read_hit := 0, read_missed := 0, read_uncacheable := 0 }

/-! ## Sequences of calls -/

/-- One call made by a client of the hooked driver: an intercepted read or
write, a report, or a seek (the seek entry is not replaced and goes straight to
the driver). -/
inductive Op where
  | read (data : Buffer) (len : Int)
  | write (data : Buffer) (len : Int)
  | stat (reset : Int)
  | seek (ofs whence : Int)

/-- The globals and the driver state after one call. -/
def step {σ : Type} (d : Driver σ) (st : Globals × σ) : Op → Globals × σ
  | Op.read data len =>
    let r := msstor_cache_read d st.1 st.2 data len
    (r.g, r.drv)
  | Op.write data len =>
    let r := msstor_cache_write d st.1 st.2 data len
    (r.g, r.drv)
  | Op.stat reset => ((msstor_stat st.1 reset).2, st.2)
  | Op.seek ofs whence => (st.1, (d.msstor_lseek st.2 ofs whence).1)

/-- The globals and the driver state after a sequence of calls. -/
def run {σ : Type} (d : Driver σ) (st : Globals × σ) (ops : List Op) : Globals × σ :=
  ops.foldl (step d) st

/-! ## A reference backend -/

/-- Modelled from the spec: the Backend of the data model, which is external to
the repository: a device of `size` bytes with a cursor.  A read or a write
transfers the bytes between the cursor and the end of the device, at most the
length asked for, and advances the cursor by the count it returns; a seek moves
the cursor and returns it.  `read_fault` and `seek_fault`, when set, are the
error value every read, respectively every absolute seek, fails with. -/
structure Disk where
  content : Buffer
  size : Int
  cursor : Int
  read_fault : Option Int
  seek_fault : Option Int

/-- The number of bytes a transfer of `len` bytes at the cursor moves. -/
def Disk.avail (k : Disk) (len : Int) : Int := max 0 (min len (k.size - k.cursor))

/-- The read entry of the reference backend. -/
def Disk.read (k : Disk) (buf : Buffer) (len : Int) : Disk × Buffer × Int :=
  match k.read_fault with
  | some e => (k, buf, e)
  | none =>
    let n := k.avail len
    ({ k with cursor := k.cursor + n }, memcpy buf (ptr_add k.content k.cursor) n, n)

/-- The write entry of the reference backend. -/
def Disk.write (k : Disk) (buf : Buffer) (len : Int) : Disk × Int :=
  let n := k.avail len
  ({ k with content := ptr_add (memcpy (ptr_add k.content k.cursor) buf n) (-k.cursor),
            cursor := k.cursor + n }, n)

/-- The seek entry of the reference backend. -/
def Disk.lseek (k : Disk) (ofs whence : Int) : Disk × Int :=
  if whence = PSP_SEEK_SET then
    match k.seek_fault with
    | some e => (k, e)
    | none => ({ k with cursor := ofs }, ofs)
  else if whence = PSP_SEEK_CUR then
    ({ k with cursor := k.cursor + ofs }, k.cursor + ofs)
  else (k, k.cursor)

/-- The reference backend as a driver. -/
def diskDriver : Driver Disk where
  msstor_read := Disk.read
  msstor_write := Disk.write
  msstor_lseek := Disk.lseek

/-! ## Concrete states used to exercise the theorems -/

/-- A slot of `CACHE_BUFSIZE` bytes, every byte `0xAA`, with the given base. -/
def slotAt (base : Int) : Globals :=
  { g_cache := { buf := fun _ => 170, bufsize := CACHE_BUFSIZE, pos := base, age := 0 }
    read_call := 0, read_hit := 0, read_missed := 0, read_uncacheable := 0 }

/-- A device of `size` bytes, every byte `0x11`, with the cursor at `cursor`. -/
def diskAt (size cursor : Int) : Disk :=
  { content := fun _ => 17, size := size, cursor := cursor,
    read_fault := none, seek_fault := none }

/-- A caller's buffer of zero bytes. -/
def zeroBuf : Buffer := fun _ => 0


/-- A device of 64 KiB whose every read fails with the value `e`, the cursor at
`cursor`. -/
def faultyDisk (e cursor : Int) : Disk :=
  { content := fun _ => 17, size := 65536, cursor := cursor,
    read_fault := some e, seek_fault := none }

/-- Counters after 50,000,000 requested bytes, 45,000,000 of them served from
the slot and 5,000,000 by refilling it; the slot holds `[0, 16384)`. -/
def busyCounters : Globals :=
  { slotAt 0 with read_call := 50000000, read_hit := 45000000, read_missed := 5000000 }

/-- The driver `d` with the value returned by every absolute seek replaced by
`f` of the driver's state and the offset; what the seek does to the driver is
kept. -/
def withSeekSetResult {σ : Type} (d : Driver σ) (f : σ → Int → Int) : Driver σ where
  msstor_read := d.msstor_read
  msstor_write := d.msstor_write
  msstor_lseek := fun s ofs whence =>
    if whence = PSP_SEEK_SET then ((d.msstor_lseek s ofs whence).1, f s ofs)
    else d.msstor_lseek s ofs whence

/-- A device of 64 KiB whose every absolute seek fails with the value `e`, the
cursor at `cursor`. -/
def stuckDisk (e cursor : Int) : Disk :=
  { content := fun _ => 17, size := 65536, cursor := cursor,
    read_fault := none, seek_fault := some e }

/-- Whether `x` is a value of the type `u32`. -/
def isU32 (x : Int) : Prop := 0 ≤ x ∧ x < 4294967296

instance (x : Int) : Decidable (isU32 x) := by
  unfold isU32
  infer_instance

/-- The comparison `read_hit + read_missed + read_uncacheable == read_call` as
the program evaluates it, the sum being a `u32` sum, together with the four
counters being `u32` values. -/
def counters_conserved (g : Globals) : Prop :=
  (isU32 g.read_call ∧ isU32 g.read_hit ∧ isU32 g.read_missed ∧ isU32 g.read_uncacheable)
  ∧ toU32 (toU32 (g.read_hit + g.read_missed) + g.read_uncacheable) = g.read_call

instance (g : Globals) : Decidable (counters_conserved g) := by
  unfold counters_conserved
  infer_instance

/-- The function `msstor_init()` with the two capacity constants as parameters:
`msstor_init` is this function at `CACHE_BUFSIZE` and `CACHE_BUFSIZE_GO`. -/
def msstor_init_with (bufsize_std bufsize_go : Int) (env : InitEnv) (g : Globals) :
    InitResult :=
  let bufsize := if env.psp_model = env.PSP_GO then bufsize_go else bufsize_std
  if Int.tmod bufsize 512 ≠ 0 then
    { ret := -1, g := g, hooked := none }
  else
    let memid := env.sceKernelAllocPartitionMemory (bufsize + 64)
    if memid < 0 then
      { ret := -2, g := g, hooked := none }
    else
      let addr := env.sceKernelGetBlockHeadAddr memid
      let g1 := { g with g_cache := { g.g_cache with buf := ptr_add env.memory addr } }
      if addr = 0 then
        { ret := -3, g := g1, hooked := none }
      else
        let addr1 := toU32 ((toU32 addr - toU32 addr % 64) + 64)
        let g2 := { g1 with g_cache := { g1.g_cache with buf := ptr_add env.memory addr1,
                                                         bufsize := bufsize,
                                                         pos := -1 } }
        let name :=
          if env.psp_model = env.PSP_GO ∧ env.sctrlKernelBootFrom = 80 then "eflash0a0f1p"
          else "msstor0p"
        if env.sctrlHENFindDriver name = false then
          { ret := -4, g := g2, hooked := none }
        else
          { ret := 0, g := g2, hooked := some name }

/-- The capacity `msstor_init` chooses for the model of the environment. -/
def init_bufsize (bufsize_std bufsize_go : Int) (env : InitEnv) : Int :=
  if env.psp_model = env.PSP_GO then bufsize_go else bufsize_std

/-- The name of the driver `msstor_init` looks up in the environment. -/
def init_driver_name (env : InitEnv) : String :=
  if env.psp_model = env.PSP_GO ∧ env.sctrlKernelBootFrom = 80 then "eflash0a0f1p"
  else "msstor0p"

/-- An environment in which everything `msstor_init` asks for succeeds: a model
other than the Go, an allocator that returns block 7 at address `0x08800010`,
and the driver `msstor0p` registered. -/
def envOK : InitEnv :=
  { psp_model := 1, PSP_GO := 4,
    sceKernelAllocPartitionMemory := fun _ => 7,
    sceKernelGetBlockHeadAddr := fun _ => 142606352,
    memory := fun _ => 0,
    sctrlKernelBootFrom := 0,
    sctrlHENFindDriver := fun name => name == "msstor0p" }

/-! # Theorems -/

/-! ## Basic facts -/

@[simp] theorem traced_lseek {σ : Type} (d : Driver σ) (s : σ) (tr : List Call)
    (ofs whence : Int) :
    (traced d).msstor_lseek (s, tr) ofs whence
      = (((d.msstor_lseek s ofs whence).1,
            tr ++ [Call.lseek ofs whence (d.msstor_lseek s ofs whence).2]),
          (d.msstor_lseek s ofs whence).2) := rfl

@[simp] theorem traced_read {σ : Type} (d : Driver σ) (s : σ) (tr : List Call)
    (buf : Buffer) (len : Int) :
    (traced d).msstor_read (s, tr) buf len
      = (((d.msstor_read s buf len).1, tr ++ [Call.read len (d.msstor_read s buf len).2.2]),
          (d.msstor_read s buf len).2.1, (d.msstor_read s buf len).2.2) := rfl

@[simp] theorem traced_write {σ : Type} (d : Driver σ) (s : σ) (tr : List Call)
    (buf : Buffer) (len : Int) :
    (traced d).msstor_write (s, tr) buf len
      = (((d.msstor_write s buf len).1, tr ++ [Call.write len (d.msstor_write s buf len).2]),
          (d.msstor_write s buf len).2) := rfl

/-- A request longer than the slot never passes the hit test. -/
theorem get_hit_cache_none_of_large (g : Globals) (pos len : Int)
    (hC : 0 ≤ g.g_cache.bufsize) (hCi : g.g_cache.bufsize < 2147483648)
    (hlen : g.g_cache.bufsize < len) (hleni : len < 2147483648) :
    get_hit_cache g pos len = none := by
  unfold get_hit_cache
  split
  · rw [if_neg]
    simp only [is_within_range, toInt32, toSceOff, Bool.and_eq_true, decide_eq_true_eq]
    omega
  · rfl

/-! ## Capacity bypass -/

/-- C3. A read longer than the slot (`len > bufsize`, both of them `int` values,
the capacity not negative) takes neither the hit nor the miss branch, whatever
the slot and the cursor: the only driver calls are the seek that queries the
position and one read of `len` bytes into the caller's buffer; the value
returned and the caller's buffer are that read's; `len` is added to
`read_uncacheable`, `read_hit` and `read_missed` keep their values, and the slot
(its base, buffer and size) is unchanged. -/
theorem capacity_bypass {σ : Type} (d : Driver σ) (g : Globals) (s : σ) (data : Buffer)
    (len : Int) (hC : 0 ≤ g.g_cache.bufsize) (hCi : g.g_cache.bufsize < 2147483648)
    (hlen : g.g_cache.bufsize < len) (hleni : len < 2147483648) :
    (msstor_cache_read (traced d) g (s, []) data len).path = Path.uncacheable
    ∧ (msstor_cache_read (traced d) g (s, []) data len).drv.2
        = [Call.lseek 0 PSP_SEEK_CUR (d.msstor_lseek s 0 PSP_SEEK_CUR).2,
           Call.read len (d.msstor_read (d.msstor_lseek s 0 PSP_SEEK_CUR).1 data len).2.2]
    ∧ (msstor_cache_read (traced d) g (s, []) data len).ret
        = (d.msstor_read (d.msstor_lseek s 0 PSP_SEEK_CUR).1 data len).2.2
    ∧ (msstor_cache_read (traced d) g (s, []) data len).data
        = (d.msstor_read (d.msstor_lseek s 0 PSP_SEEK_CUR).1 data len).2.1
    ∧ (msstor_cache_read (traced d) g (s, []) data len).g.read_uncacheable
        = toU32 (g.read_uncacheable + len)
    ∧ (msstor_cache_read (traced d) g (s, []) data len).g.read_hit = g.read_hit
    ∧ (msstor_cache_read (traced d) g (s, []) data len).g.read_missed = g.read_missed
    ∧ (msstor_cache_read (traced d) g (s, []) data len).g.g_cache = g.g_cache := by
  have hmiss := get_hit_cache_none_of_large g (d.msstor_lseek s 0 PSP_SEEK_CUR).2 len
    hC hCi hlen hleni
  have hnot : ¬ len ≤ g.g_cache.bufsize := by omega
  simp [msstor_cache_read, hmiss, hnot]

/-- C3 at a concrete input: a read of 20000 bytes at offset 50 of a 64 KiB device,
the slot valid with base 0. -/
theorem capacity_bypass_witness :
    (msstor_cache_read (traced diskDriver) (slotAt 0) (diskAt 65536 50, []) zeroBuf 20000).path
        = Path.uncacheable
    ∧ (msstor_cache_read (traced diskDriver) (slotAt 0) (diskAt 65536 50, []) zeroBuf 20000).drv.2
        = [Call.lseek 0 PSP_SEEK_CUR (diskDriver.msstor_lseek (diskAt 65536 50) 0 PSP_SEEK_CUR).2,
           Call.read 20000 (diskDriver.msstor_read
             (diskDriver.msstor_lseek (diskAt 65536 50) 0 PSP_SEEK_CUR).1 zeroBuf 20000).2.2]
    ∧ (msstor_cache_read (traced diskDriver) (slotAt 0) (diskAt 65536 50, []) zeroBuf 20000).ret
        = (diskDriver.msstor_read
            (diskDriver.msstor_lseek (diskAt 65536 50) 0 PSP_SEEK_CUR).1 zeroBuf 20000).2.2
    ∧ (msstor_cache_read (traced diskDriver) (slotAt 0) (diskAt 65536 50, []) zeroBuf 20000).data
        = (diskDriver.msstor_read
            (diskDriver.msstor_lseek (diskAt 65536 50) 0 PSP_SEEK_CUR).1 zeroBuf 20000).2.1
    ∧ (msstor_cache_read (traced diskDriver) (slotAt 0) (diskAt 65536 50, []) zeroBuf
          20000).g.read_uncacheable
        = toU32 ((slotAt 0).read_uncacheable + 20000)
    ∧ (msstor_cache_read (traced diskDriver) (slotAt 0) (diskAt 65536 50, []) zeroBuf
          20000).g.read_hit = (slotAt 0).read_hit
    ∧ (msstor_cache_read (traced diskDriver) (slotAt 0) (diskAt 65536 50, []) zeroBuf
          20000).g.read_missed = (slotAt 0).read_missed
    ∧ (msstor_cache_read (traced diskDriver) (slotAt 0) (diskAt 65536 50, []) zeroBuf
          20000).g.g_cache = (slotAt 0).g_cache :=
  capacity_bypass diskDriver (slotAt 0) (diskAt 65536 50) zeroBuf 20000
    (by decide) (by decide) (by decide) (by decide)


/-! ## The boundary quirk -/

/-- C5. A read that ends exactly at the end of the slot's range,
`pos1 + len1 = pos0 + bufsize` with `pos1 >= pos0` and `pos0` the slot's base, does
not take the hit branch although all its bytes lie in the range: it takes the
miss branch.  `len1` is added to `read_missed` and `read_hit` keeps its value;
the slot is refilled from `pos1`: after the seek that queries the position the
driver is asked once for `bufsize` bytes into the slot's buffer, the buffer is
what that read left, and the base is `pos1` when the read succeeded (and `-1`
when it failed). -/
theorem boundary_quirk {σ : Type} (d : Driver σ) (g : Globals) (s : σ) (data : Buffer)
    (pos1 len1 : Int)
    (hcur : (d.msstor_lseek s 0 PSP_SEEK_CUR).2 = pos1)
    (hpos : g.g_cache.pos ≤ pos1)
    (hend : pos1 + len1 = g.g_cache.pos + g.g_cache.bufsize) :
    (msstor_cache_read (traced d) g (s, []) data len1).path = Path.miss
    ∧ (msstor_cache_read (traced d) g (s, []) data len1).g.read_missed
        = toU32 (g.read_missed + len1)
    ∧ (msstor_cache_read (traced d) g (s, []) data len1).g.read_hit = g.read_hit
    ∧ (msstor_cache_read (traced d) g (s, []) data len1).drv.2.take 2
        = [Call.lseek 0 PSP_SEEK_CUR pos1,
           Call.read g.g_cache.bufsize
             (d.msstor_read (d.msstor_lseek s 0 PSP_SEEK_CUR).1 g.g_cache.buf
               g.g_cache.bufsize).2.2]
    ∧ (msstor_cache_read (traced d) g (s, []) data len1).g.g_cache.buf
        = (d.msstor_read (d.msstor_lseek s 0 PSP_SEEK_CUR).1 g.g_cache.buf
            g.g_cache.bufsize).2.1
    ∧ (msstor_cache_read (traced d) g (s, []) data len1).g.g_cache.pos
        = if (d.msstor_read (d.msstor_lseek s 0 PSP_SEEK_CUR).1 g.g_cache.buf
                g.g_cache.bufsize).2.2 ≥ 0 then pos1 else -1 := by
  have hmiss : get_hit_cache g pos1 len1 = none := by
    unfold get_hit_cache
    split
    · rw [if_neg]
      simp only [is_within_range, toInt32, toSceOff, Bool.and_eq_true, decide_eq_true_eq]
      omega
    · rfl
  have hle : len1 ≤ g.g_cache.bufsize := by omega
  simp only [msstor_cache_read, traced_lseek, hcur, hmiss, hle, if_true, traced_read,
    disable_cache]
  split <;> simp

/-- C5 at a concrete input: the slot holds `[0, 16384)` and 384 bytes are read at
offset 16000, ending exactly at 16384. -/
theorem boundary_quirk_witness :
    (diskDriver.msstor_lseek (diskAt 65536 16000) 0 PSP_SEEK_CUR).2 = 16000
    ∧ (slotAt 0).g_cache.pos ≤ 16000
    ∧ (16000 : Int) + 384 = (slotAt 0).g_cache.pos + (slotAt 0).g_cache.bufsize
    ∧ (msstor_cache_read (traced diskDriver) (slotAt 0) (diskAt 65536 16000, []) zeroBuf
          384).path = Path.miss
    ∧ (msstor_cache_read (traced diskDriver) (slotAt 0) (diskAt 65536 16000, []) zeroBuf
          384).g.read_missed = 384
    ∧ (msstor_cache_read (traced diskDriver) (slotAt 0) (diskAt 65536 16000, []) zeroBuf
          384).g.g_cache.pos = 16000 :=
  have h := boundary_quirk diskDriver (slotAt 0) (diskAt 65536 16000) zeroBuf 16000 384
    (by decide) (by decide) (by decide)
  ⟨by decide, by decide, by decide, h.1, h.2.1, h.2.2.2.2.2⟩

/-! ## A failed fill -/

/-- C8. A read of `len <= bufsize` bytes that does not pass the hit test and whose
fill fails (the driver's read of `bufsize` bytes into the slot's buffer returns
`e < 0`) returns exactly `e`; the slot is invalid afterwards whatever it was
before; the driver is called twice in all, the seek that queries the position
and that one read (no second read, no repositioning seek); and `len` is added to
`read_missed` and to `read_call`. -/
theorem failed_fill {σ : Type} (d : Driver σ) (g : Globals) (s : σ) (data : Buffer)
    (len e : Int)
    (hle : len ≤ g.g_cache.bufsize)
    (hmiss : get_hit_cache g (d.msstor_lseek s 0 PSP_SEEK_CUR).2 len = none)
    (hret : (d.msstor_read (d.msstor_lseek s 0 PSP_SEEK_CUR).1 g.g_cache.buf
              g.g_cache.bufsize).2.2 = e)
    (he : e < 0) :
    (msstor_cache_read (traced d) g (s, []) data len).ret = e
    ∧ (msstor_cache_read (traced d) g (s, []) data len).g.g_cache.pos = -1
    ∧ (msstor_cache_read (traced d) g (s, []) data len).drv.2
        = [Call.lseek 0 PSP_SEEK_CUR (d.msstor_lseek s 0 PSP_SEEK_CUR).2,
           Call.read g.g_cache.bufsize e]
    ∧ (msstor_cache_read (traced d) g (s, []) data len).g.read_missed
        = toU32 (g.read_missed + len)
    ∧ (msstor_cache_read (traced d) g (s, []) data len).g.read_call
        = toU32 (g.read_call + len)
    ∧ (msstor_cache_read (traced d) g (s, []) data len).path = Path.miss := by
  have hneg : ¬ (e ≥ 0) := by omega
  simp [msstor_cache_read, hmiss, hle, hret, hneg, disable_cache]

/-- C8 at a concrete input: the slot holds `[0, 16384)`, 512 bytes are read at
offset 16384 (no hit) and the driver's read fails with `-5`. -/
theorem failed_fill_witness :
    ((512 : Int) ≤ (slotAt 0).g_cache.bufsize
      ∧ get_hit_cache (slotAt 0)
          (diskDriver.msstor_lseek (faultyDisk (-5) 16384) 0 PSP_SEEK_CUR).2 512
          = none
      ∧ (-5 : Int) < 0)
    ∧ (msstor_cache_read (traced diskDriver) (slotAt 0)
          ((faultyDisk (-5) 16384), []) zeroBuf 512).ret = -5
    ∧ (msstor_cache_read (traced diskDriver) (slotAt 0)
          ((faultyDisk (-5) 16384), []) zeroBuf 512).g.g_cache.pos = -1
    ∧ (msstor_cache_read (traced diskDriver) (slotAt 0)
          ((faultyDisk (-5) 16384), []) zeroBuf 512).drv.2
        = [Call.lseek 0 1 16384, Call.read 16384 (-5)] :=
  have h := failed_fill diskDriver (slotAt 0) (faultyDisk (-5) 16384) zeroBuf
    512 (-5) (by decide) rfl rfl (by decide)
  ⟨⟨by decide, rfl, by decide⟩, h.1, h.2.1, h.2.2.1⟩

/-! ## Counter conservation -/

/-- The invalidation done for a write either leaves the globals alone or
invalidates the slot and changes nothing else. -/
theorem disable_cache_within_range_cases (g : Globals) (pos len : Int) :
    disable_cache_within_range g pos len = g
    ∨ disable_cache_within_range g pos len = { g with g_cache := disable_cache g.g_cache } := by
  unfold disable_cache_within_range
  by_cases h0 : g.g_cache.pos = -1
  · simp [h0]
  · by_cases h1 : is_within_range (toInt32 pos) (toInt32 g.g_cache.pos) g.g_cache.bufsize = true
    · simp only [ne_eq, h0, not_false_eq_true, if_true, h1, disable_cache]
      split_ifs <;> simp
    · simp only [ne_eq, h0, not_false_eq_true, if_true, h1, disable_cache]
      split_ifs <;> simp

/-- The invalidation done for a write changes no counter. -/
theorem disable_cache_within_range_counters (g : Globals) (pos len : Int) :
    (disable_cache_within_range g pos len).read_call = g.read_call
    ∧ (disable_cache_within_range g pos len).read_hit = g.read_hit
    ∧ (disable_cache_within_range g pos len).read_missed = g.read_missed
    ∧ (disable_cache_within_range g pos len).read_uncacheable = g.read_uncacheable := by
  rcases disable_cache_within_range_cases g pos len with h | h <;> rw [h] <;> simp

/-- One read keeps the counters conserved. -/
theorem msstor_cache_read_conserved {σ : Type} (d : Driver σ) (g : Globals) (s : σ)
    (data : Buffer) (len : Int) (h : counters_conserved g) :
    counters_conserved (msstor_cache_read d g s data len).g := by
  unfold msstor_cache_read
  simp only [counters_conserved, isU32, toU32] at h ⊢
  split
  · simp only; omega
  · split_ifs <;> simp only <;> omega

/-- One call of any kind keeps the counters conserved. -/
theorem step_conserved {σ : Type} (d : Driver σ) (st : Globals × σ) (op : Op)
    (h : counters_conserved st.1) : counters_conserved (step d st op).1 := by
  cases op with
  | read data len => exact msstor_cache_read_conserved d st.1 st.2 data len h
  | write data len =>
    have hc := disable_cache_within_range_counters st.1 (d.msstor_lseek st.2 0 PSP_SEEK_CUR).2 len
    simp only [step, msstor_cache_write, counters_conserved]
    rw [hc.1, hc.2.1, hc.2.2.1, hc.2.2.2]
    exact h
  | stat reset =>
    simp only [step, msstor_stat]
    split_ifs
    · simp [counters_conserved, isU32, toU32]
    · exact h
  | seek ofs whence => exact h

/-- A sequence of calls keeps the counters conserved. -/
theorem run_conserved {σ : Type} (d : Driver σ) (ops : List Op) :
    ∀ st : Globals × σ, counters_conserved st.1 → counters_conserved (run d st ops).1 := by
  induction ops with
  | nil => intro st h; exact h
  | cons op rest ih =>
    intro st h
    exact ih (step d st op) (step_conserved d st op h)

/-- C6. From any state whose four counters are zero, after any finite sequence
of intercepted reads and writes, reports (with or without reset) and seeks, with
any arguments and any driver, the four counters are `u32` values and the
comparison `read_hit + read_missed + read_uncacheable == read_call` holds as the
program evaluates it (the sum is a `u32` sum, taken modulo `2^32` like every
update of a counter). -/
theorem counter_conservation {σ : Type} (d : Driver σ) (g0 : Globals) (s0 : σ)
    (ops : List Op)
    (hcall : g0.read_call = 0) (hhit : g0.read_hit = 0) (hmissed : g0.read_missed = 0)
    (hunc : g0.read_uncacheable = 0) :
    counters_conserved (run d (g0, s0) ops).1 := by
  apply run_conserved
  simp [counters_conserved, isU32, hcall, hhit, hmissed, hunc, toU32]

/-- C6 at a concrete input: a miss, a hit, a write, a bypassing read and a
report, on a 64 KiB device; 20140 bytes were requested in all. -/
theorem counter_conservation_witness :
    ((slotAt (-1)).read_call = 0 ∧ (slotAt (-1)).read_hit = 0
      ∧ (slotAt (-1)).read_missed = 0 ∧ (slotAt (-1)).read_uncacheable = 0)
    ∧ counters_conserved (run diskDriver (slotAt (-1), diskAt 65536 0)
        [Op.read zeroBuf 100, Op.seek 50 PSP_SEEK_SET, Op.read zeroBuf 40,
         Op.write zeroBuf 5, Op.read zeroBuf 20000, Op.stat 0]).1
    ∧ (run diskDriver (slotAt (-1), diskAt 65536 0)
        [Op.read zeroBuf 100, Op.seek 50 PSP_SEEK_SET, Op.read zeroBuf 40,
         Op.write zeroBuf 5, Op.read zeroBuf 20000, Op.stat 0]).1.read_call = 20140 :=
  ⟨⟨rfl, rfl, rfl, rfl⟩,
    counter_conservation diskDriver (slotAt (-1)) (diskAt 65536 0)
      [Op.read zeroBuf 100, Op.seek 50 PSP_SEEK_SET, Op.read zeroBuf 40,
       Op.write zeroBuf 5, Op.read zeroBuf 20000, Op.stat 0] rfl rfl rfl rfl,
    by decide⟩

/-! ## The hit test -/

/-- C4. The hit test compares the offsets after their conversion to `int`: with
the slot holding `[0, 16384)`, `get_hit_cache(4294967296, 512)` reports a hit,
although the 64-bit offset 4 GiB is not in `[0, 16384)`; and the read at that
cursor is then served from the slot (byte `0xAA`) instead of the device (byte
`0x11`). -/
theorem get_hit_cache_aliases_4GiB :
    (get_hit_cache (slotAt 0) 4294967296 512).isSome = true
    ∧ ¬ ((slotAt 0).g_cache.pos ≤ 4294967296
          ∧ (4294967296 : Int) < (slotAt 0).g_cache.pos + (slotAt 0).g_cache.bufsize)
    ∧ (msstor_cache_read diskDriver (slotAt 0) (diskAt 8589934592 4294967296) zeroBuf
          512).path = Path.hit
    ∧ (msstor_cache_read diskDriver (slotAt 0) (diskAt 8589934592 4294967296) zeroBuf
          512).data 0 = 170
    ∧ (diskDriver.msstor_read (diskAt 8589934592 4294967296) zeroBuf 512).2.1 0 = 17 := by
  decide

/-! ## The report -/

/-- C7. The percentages are computed in `u32` and the product `100 * counter`
wraps: with 45,000,000 bytes hit out of 50,000,000 requested the report prints
`04%` where the exact quotient is 90. -/
theorem msstor_stat_percent_wraps :
    (msstor_stat busyCounters 0).1
        = "Mstor cache size: 16KB\nhit percent: 04%/10%/00%, [45000000/5000000/0/50000000]\ncaches stat:\nCache Pos: 0x00000000\n"
    ∧ stat_percent busyCounters.read_hit busyCounters.read_call = 4
    ∧ busyCounters.read_hit * 100 / busyCounters.read_call = 90
    ∧ busyCounters.read_call ≠ 0 := by
  decide

/-- While `100 * counter` fits in `u32` and the counter does not exceed
`read_call`, the percentage is the exact floor of `counter * 100 / read_call`. -/
theorem stat_percent_exact (counter read_call : Int) (h0 : 0 ≤ counter)
    (hsmall : 100 * counter < 4294967296) (hle : counter ≤ read_call)
    (hcall : 0 < read_call) :
    stat_percent counter read_call = counter * 100 / read_call := by
  have hq0 : 0 ≤ 100 * counter / read_call := Int.ediv_nonneg (by omega) (by omega)
  have hq1 : 100 * counter / read_call ≤ 100 :=
    Int.ediv_le_of_le_mul hcall (by omega)
  have hmod : (100 * counter) % 4294967296 = 100 * counter :=
    Int.emod_eq_of_lt (by omega) hsmall
  have hcomm : counter * 100 = 100 * counter := by ring
  unfold stat_percent toInt32 toU32
  rw [hmod, hcomm]
  omega

/-! ## Fill, then hit -/

/-- C1. A fill that the driver answers with fewer than `bufsize` bytes still
validates the whole slot.  On a device of 1 GiB, at its last two sectors: the
read of 512 bytes at offset `1073740800` takes the miss branch and its driver
read succeeds (1024 bytes, the rest of the device); the read that follows, 1024
bytes at the cursor `1073741312` where the first one left it, lies within the
slot's range, takes the hit branch and returns 1024, the bytes after the first
512 being what the slot's buffer held before the fill (`0xAA`); the direct
driver read of the same range returns 512 and leaves those bytes of the
caller's buffer alone. -/
theorem fill_then_hit_short_fill :
    (msstor_cache_read diskDriver (slotAt (-1)) (diskAt 1073741824 1073740800) zeroBuf
        512).path = Path.miss
    ∧ 0 ≤ (diskDriver.msstor_read (diskAt 1073741824 1073740800) (slotAt (-1)).g_cache.buf
            (slotAt (-1)).g_cache.bufsize).2.2
    ∧ (msstor_cache_read diskDriver (slotAt (-1)) (diskAt 1073741824 1073740800) zeroBuf
        512).g.g_cache.pos = 1073740800
    ∧ (diskDriver.msstor_lseek
        (msstor_cache_read diskDriver (slotAt (-1)) (diskAt 1073741824 1073740800) zeroBuf
          512).drv 0 PSP_SEEK_CUR).2 = 1073741312
    ∧ ((1073740800 : Int) ≤ 1073741312 ∧ (1073741312 : Int) < 1073740800 + CACHE_BUFSIZE
        ∧ (1073741312 : Int) + 1024 < 1073740800 + CACHE_BUFSIZE)
    ∧ (msstor_cache_read diskDriver
          (msstor_cache_read diskDriver (slotAt (-1)) (diskAt 1073741824 1073740800) zeroBuf
            512).g
          (msstor_cache_read diskDriver (slotAt (-1)) (diskAt 1073741824 1073740800) zeroBuf
            512).drv zeroBuf 1024).path = Path.hit
    ∧ (msstor_cache_read diskDriver
          (msstor_cache_read diskDriver (slotAt (-1)) (diskAt 1073741824 1073740800) zeroBuf
            512).g
          (msstor_cache_read diskDriver (slotAt (-1)) (diskAt 1073741824 1073740800) zeroBuf
            512).drv zeroBuf 1024).ret = 1024
    ∧ (msstor_cache_read diskDriver
          (msstor_cache_read diskDriver (slotAt (-1)) (diskAt 1073741824 1073740800) zeroBuf
            512).g
          (msstor_cache_read diskDriver (slotAt (-1)) (diskAt 1073741824 1073740800) zeroBuf
            512).drv zeroBuf 1024).data 600 = 170
    ∧ (diskDriver.msstor_read
          (msstor_cache_read diskDriver (slotAt (-1)) (diskAt 1073741824 1073740800) zeroBuf
            512).drv zeroBuf 1024).2.2 = 512
    ∧ (diskDriver.msstor_read
          (msstor_cache_read diskDriver (slotAt (-1)) (diskAt 1073741824 1073740800) zeroBuf
            512).drv zeroBuf 1024).2.1 600 = 0 := by
  decide

/-! ## Write invalidation -/

/-- An invalid slot passes no hit test. -/
theorem get_hit_cache_none_of_invalid (g : Globals) (pos len : Int)
    (h : g.g_cache.pos = -1) : get_hit_cache g pos len = none := by
  simp [get_hit_cache, h]

/-- A read that does not pass the hit test and fits the slot takes the miss
branch. -/
theorem msstor_cache_read_path_miss {σ : Type} (d : Driver σ) (g : Globals) (s : σ)
    (data : Buffer) (len : Int)
    (hmiss : get_hit_cache g (d.msstor_lseek s 0 PSP_SEEK_CUR).2 len = none)
    (hle : len ≤ g.g_cache.bufsize) :
    (msstor_cache_read d g s data len).path = Path.miss := by
  simp only [msstor_cache_read, hmiss, hle, if_true]
  split <;> rfl

/-- The invalidation done for a write keeps the slot's size. -/
theorem disable_cache_within_range_bufsize (g : Globals) (pos len : Int) :
    (disable_cache_within_range g pos len).g_cache.bufsize = g.g_cache.bufsize := by
  rcases disable_cache_within_range_cases g pos len with h | h <;> simp [h, disable_cache]

/-- The three tests in sequence amount to one test on the slot as it was: the
slot is invalidated exactly when it was valid and one of the three conditions
held of its base before the call. -/
theorem disable_cache_within_range_eq (g : Globals) (pos len : Int) :
    disable_cache_within_range g pos len
      = if g.g_cache.pos ≠ -1
            ∧ (is_within_range (toInt32 pos) (toInt32 g.g_cache.pos) g.g_cache.bufsize = true
              ∨ is_within_range (toInt32 (toSceOff (pos + len))) (toInt32 g.g_cache.pos)
                  g.g_cache.bufsize = true
              ∨ (pos ≤ g.g_cache.pos
                  ∧ toSceOff (pos + len) ≥ toSceOff (g.g_cache.pos + g.g_cache.bufsize))) then
          { g with g_cache := disable_cache g.g_cache }
        else g := by
  unfold disable_cache_within_range
  by_cases h0 : g.g_cache.pos = -1
  · simp [h0]
  · cases h1 : is_within_range (toInt32 pos) (toInt32 g.g_cache.pos) g.g_cache.bufsize <;>
    cases h2 : is_within_range (toInt32 (toSceOff (pos + len))) (toInt32 g.g_cache.pos)
        g.g_cache.bufsize <;>
    simp [h0, h1, h2, disable_cache]

/-- The three-part test fires for a write range that meets the slot's range,
ends where it starts or encloses it, when the sums do not overflow. -/
theorem disable_cache_within_range_invalidates (g : Globals) (pos len : Int)
    (hno32 : toInt32 g.g_cache.pos + g.g_cache.bufsize < 2147483648)
    (hsum1 : toSceOff (pos + len) = pos + len)
    (hsum2 : toSceOff (g.g_cache.pos + g.g_cache.bufsize) = g.g_cache.pos + g.g_cache.bufsize)
    (hlo : pos < g.g_cache.pos + g.g_cache.bufsize)
    (hhi : g.g_cache.pos ≤ pos + len) :
    (disable_cache_within_range g pos len).g_cache.pos = -1 := by
  rw [disable_cache_within_range_eq]
  split_ifs with h
  · rfl
  · by_cases h0 : g.g_cache.pos = -1
    · exact h0
    · exfalso
      apply h
      refine ⟨h0, ?_⟩
      rw [hsum1, hsum2]
      simp only [is_within_range, toInt32, decide_eq_true_eq]
      simp only [toInt32] at hno32
      omega

/-- C2, as the code has it. For a valid or invalid slot with base `b` and size
`C` whose `int` sum `(int)b + C` does not overflow, a write at cursor `pos` of
`len` bytes whose range meets `[b, b+C)`, ends exactly at `b`, or encloses the
range (`pos < b + C` and `b <= pos + len`, the 64-bit sums exact) leaves the slot
invalid, and the next read of at most `C` bytes, at any cursor, takes the miss
branch.  A write that starts exactly at `b + C` is not covered: it leaves the
slot as it was. -/
theorem write_invalidation {σ : Type} (d : Driver σ) (g : Globals) (s : σ) (data : Buffer)
    (pos len : Int)
    (hcur : (d.msstor_lseek s 0 PSP_SEEK_CUR).2 = pos)
    (hno32 : toInt32 g.g_cache.pos + g.g_cache.bufsize < 2147483648)
    (hsum1 : toSceOff (pos + len) = pos + len)
    (hsum2 : toSceOff (g.g_cache.pos + g.g_cache.bufsize) = g.g_cache.pos + g.g_cache.bufsize)
    (hlo : pos < g.g_cache.pos + g.g_cache.bufsize)
    (hhi : g.g_cache.pos ≤ pos + len) :
    (msstor_cache_write d g s data len).g.g_cache.pos = -1
    ∧ ∀ (s2 : σ) (data2 : Buffer) (len2 : Int), len2 ≤ g.g_cache.bufsize →
        (msstor_cache_read d (msstor_cache_write d g s data len).g s2 data2 len2).path
          = Path.miss := by
  have hinv : (msstor_cache_write d g s data len).g.g_cache.pos = -1 := by
    simp only [msstor_cache_write, hcur]
    exact disable_cache_within_range_invalidates g pos len hno32 hsum1 hsum2 hlo hhi
  have hsize : (msstor_cache_write d g s data len).g.g_cache.bufsize = g.g_cache.bufsize := by
    simp only [msstor_cache_write]
    exact disable_cache_within_range_bufsize g _ len
  refine ⟨hinv, ?_⟩
  intro s2 data2 len2 hle
  apply msstor_cache_read_path_miss
  · exact get_hit_cache_none_of_invalid _ _ _ hinv
  · rw [hsize]; exact hle

/-- C2 at a concrete input: the scenario of the spec, the slot holding
`[0, 16384)` and 5 bytes written at offset 60; the read of 40 bytes at offset 50
that follows is a miss. -/
theorem write_invalidation_witness :
    ((diskDriver.msstor_lseek (diskAt 65536 60) 0 PSP_SEEK_CUR).2 = 60
      ∧ toInt32 (slotAt 0).g_cache.pos + (slotAt 0).g_cache.bufsize < 2147483648
      ∧ (60 : Int) < (slotAt 0).g_cache.pos + (slotAt 0).g_cache.bufsize
      ∧ (slotAt 0).g_cache.pos ≤ 60 + 5)
    ∧ (msstor_cache_write diskDriver (slotAt 0) (diskAt 65536 60) zeroBuf 5).g.g_cache.pos = -1
    ∧ (msstor_cache_read diskDriver
        (msstor_cache_write diskDriver (slotAt 0) (diskAt 65536 60) zeroBuf 5).g
        (diskAt 65536 50) zeroBuf 40).path = Path.miss :=
  have h := write_invalidation diskDriver (slotAt 0) (diskAt 65536 60) zeroBuf 60 5
    (by decide) (by decide) (by decide) (by decide) (by decide) (by decide)
  ⟨⟨by decide, by decide, by decide, by decide⟩, h.1, h.2 (diskAt 65536 50) zeroBuf 40 (by decide)⟩

/-- C2 as stated fails for a write adjacent to the slot's range at its upper
end: with the slot holding `[0, 16384)`, a write of 512 bytes at cursor 16384
leaves the slot valid, and the read of 40 bytes at offset 50 that follows is a
hit. -/
theorem write_adjacent_above_keeps_slot :
    (diskDriver.msstor_lseek (diskAt 65536 16384) 0 PSP_SEEK_CUR).2
        = (slotAt 0).g_cache.pos + (slotAt 0).g_cache.bufsize
    ∧ (msstor_cache_write diskDriver (slotAt 0) (diskAt 65536 16384) zeroBuf 512).g.g_cache.pos
        = 0
    ∧ (msstor_cache_read diskDriver
        (msstor_cache_write diskDriver (slotAt 0) (diskAt 65536 16384) zeroBuf 512).g
        (diskDriver.msstor_lseek
          (msstor_cache_write diskDriver (slotAt 0) (diskAt 65536 16384) zeroBuf 512).drv
          50 PSP_SEEK_SET).1 zeroBuf 40).path = Path.hit := by
  decide

/-! ## Seek results -/

/-- C9 as stated fails: on a device whose absolute seeks fail with `-5`, a read
of 512 bytes at offset 0 (a miss whose fill succeeds) makes a repositioning
seek that returns `-5`, and `msstor_cache_read` returns 512. -/
theorem seek_error_not_returned :
    (msstor_cache_read (traced diskDriver) (slotAt (-1)) (stuckDisk (-5) 0, []) zeroBuf
        512).drv.2
      = [Call.lseek 0 PSP_SEEK_CUR 0, Call.read 16384 16384, Call.lseek 512 PSP_SEEK_SET (-5)]
    ∧ (msstor_cache_read (traced diskDriver) (slotAt (-1)) (stuckDisk (-5) 0, []) zeroBuf
        512).ret = 512 := by
  decide

/-- C9, as the code has it. No value returned by a seek is checked or returned.
The outcome of `msstor_cache_read` (value returned, caller's buffer, globals,
driver state, branch) is the same whatever the absolute seeks return; the value
it returns is the copied length on a hit, the driver read's result on the
bypass branch and on a failed fill, and the smaller of `len` and the driver
read's result on a successful fill, the value of `seek(0, Current)` serving as
the position `pos` unchecked.  `msstor_cache_write` returns the driver write's
result, the write being issued in the state the seek left, whatever the seek
returned. -/
theorem seek_results_unchecked {σ : Type} (d : Driver σ) (f : σ → Int → Int) (g : Globals)
    (s : σ) (data : Buffer) (len : Int) :
    msstor_cache_read (withSeekSetResult d f) g s data len = msstor_cache_read d g s data len
    ∧ (msstor_cache_read d g s data len).ret
        = (match (msstor_cache_read d g s data len).path with
          | Path.hit =>
            toInt32 (MIN len (toSceOff (toSceOff (g.g_cache.pos + g.g_cache.bufsize)
              - (d.msstor_lseek s 0 PSP_SEEK_CUR).2)))
          | Path.miss =>
            if (d.msstor_read (d.msstor_lseek s 0 PSP_SEEK_CUR).1 g.g_cache.buf
                  g.g_cache.bufsize).2.2 ≥ 0 then
              MIN len (d.msstor_read (d.msstor_lseek s 0 PSP_SEEK_CUR).1 g.g_cache.buf
                  g.g_cache.bufsize).2.2
            else
              (d.msstor_read (d.msstor_lseek s 0 PSP_SEEK_CUR).1 g.g_cache.buf
                  g.g_cache.bufsize).2.2
          | Path.uncacheable =>
            (d.msstor_read (d.msstor_lseek s 0 PSP_SEEK_CUR).1 data len).2.2)
    ∧ (msstor_cache_write d g s data len).ret
        = (d.msstor_write (d.msstor_lseek s 0 PSP_SEEK_CUR).1 data len).2 := by
  refine ⟨?_, ?_, rfl⟩
  · have hcur : ∀ t : σ, (withSeekSetResult d f).msstor_lseek t 0 PSP_SEEK_CUR
        = d.msstor_lseek t 0 PSP_SEEK_CUR := by
      intro t
      simp [withSeekSetResult, PSP_SEEK_CUR, PSP_SEEK_SET]
    have hset : ∀ (t : σ) (ofs : Int), ((withSeekSetResult d f).msstor_lseek t ofs PSP_SEEK_SET).1
        = (d.msstor_lseek t ofs PSP_SEEK_SET).1 := by
      intro t ofs
      simp [withSeekSetResult]
    have hrd : (withSeekSetResult d f).msstor_read = d.msstor_read := rfl
    unfold msstor_cache_read
    simp only [hcur, hset, hrd]
  · unfold msstor_cache_read
    cases hc : get_hit_cache g (d.msstor_lseek s 0 PSP_SEEK_CUR).2 len with
    | some cache =>
      have hcache : cache = g.g_cache := by
        unfold get_hit_cache at hc
        split_ifs at hc
        exact (Option.some.inj hc).symm
      simp [hc, hcache]
    | none =>
      simp only [hc, disable_cache]
      split_ifs <;> simp_all

/-! ## The hit branch and the driver -/

/-- C10 as stated fails: with the slot holding `[0, 16384)`, the read of 40 bytes
at offset 50 takes the hit branch and calls the driver's seek twice. -/
theorem hit_path_calls_seek :
    (msstor_cache_read (traced diskDriver) (slotAt 0) (diskAt 65536 50, []) zeroBuf 40).path
        = Path.hit
    ∧ (msstor_cache_read (traced diskDriver) (slotAt 0) (diskAt 65536 50, []) zeroBuf 40).drv.2
        = [Call.lseek 0 PSP_SEEK_CUR 50, Call.lseek 90 PSP_SEEK_SET 90] := by
  decide

/-- C10, as the code has it. A read that takes the hit branch calls neither the
driver's read nor its write; it calls the driver's seek exactly twice, once to
query the position and once to reposition the cursor behind the bytes copied,
and looks at neither result for an error. -/
theorem hit_path_driver_calls {σ : Type} (d : Driver σ) (g : Globals) (s : σ)
    (data : Buffer) (len : Int)
    (hhit : (msstor_cache_read (traced d) g (s, []) data len).path = Path.hit) :
    (msstor_cache_read (traced d) g (s, []) data len).drv.2
        = [Call.lseek 0 PSP_SEEK_CUR (d.msstor_lseek s 0 PSP_SEEK_CUR).2,
           Call.lseek
             (toSceOff ((d.msstor_lseek s 0 PSP_SEEK_CUR).2
               + (msstor_cache_read (traced d) g (s, []) data len).ret))
             PSP_SEEK_SET
             (d.msstor_lseek (d.msstor_lseek s 0 PSP_SEEK_CUR).1
               (toSceOff ((d.msstor_lseek s 0 PSP_SEEK_CUR).2
                 + (msstor_cache_read (traced d) g (s, []) data len).ret))
               PSP_SEEK_SET).2]
    ∧ (msstor_cache_read (traced d) g (s, []) data len).drv.2.filter Call.isRead = []
    ∧ (msstor_cache_read (traced d) g (s, []) data len).drv.2.filter Call.isWrite = [] := by
  unfold msstor_cache_read at hhit ⊢
  simp only [traced_lseek] at hhit ⊢
  cases hc : get_hit_cache g (d.msstor_lseek s 0 PSP_SEEK_CUR).2 len with
  | some cache => simp [hc, Call.isRead, Call.isWrite]
  | none =>
    rw [hc] at hhit
    simp only at hhit
    split_ifs at hhit

/-- C10 at a concrete input: the slot holds `[0, 16384)` and 40 bytes are read at
offset 50. -/
theorem hit_path_driver_calls_witness :
    (msstor_cache_read (traced diskDriver) (slotAt 0) (diskAt 65536 50, []) zeroBuf 40).path
        = Path.hit
    ∧ (msstor_cache_read (traced diskDriver) (slotAt 0) (diskAt 65536 50, []) zeroBuf
        40).drv.2.filter Call.isRead = []
    ∧ (msstor_cache_read (traced diskDriver) (slotAt 0) (diskAt 65536 50, []) zeroBuf
        40).drv.2.filter Call.isWrite = [] :=
  have h := hit_path_driver_calls diskDriver (slotAt 0) (diskAt 65536 50) zeroBuf 40
    (by decide)
  ⟨by decide, h.2.1, h.2.2⟩

/-! ## The hit test within the `int` range -/

/-- While the offsets and the end of the slot's range are `int` values, the hit
test is the one on the 64-bit values: the slot is valid and both `pos` and
`pos + len` lie in `[b, b + bufsize)`. -/
theorem get_hit_cache_isSome_iff_of_int (g : Globals) (pos len : Int)
    (hC : 0 ≤ g.g_cache.bufsize)
    (hb : -2147483648 ≤ g.g_cache.pos)
    (hend : g.g_cache.pos + g.g_cache.bufsize < 2147483648)
    (hp0 : -2147483648 ≤ pos) (hp1 : pos < 2147483648)
    (hq0 : -2147483648 ≤ pos + len) (hq1 : pos + len < 2147483648) :
    (get_hit_cache g pos len).isSome = true
      ↔ g.g_cache.pos ≠ -1
        ∧ (g.g_cache.pos ≤ pos ∧ pos < g.g_cache.pos + g.g_cache.bufsize)
        ∧ (g.g_cache.pos ≤ pos + len ∧ pos + len < g.g_cache.pos + g.g_cache.bufsize) := by
  unfold get_hit_cache
  by_cases h0 : g.g_cache.pos = -1
  · simp [h0]
  · simp only [ne_eq, h0, not_false_eq_true, if_true, true_and]
    split_ifs with h
    · simp only [Option.isSome_some, true_iff]
      simp only [is_within_range, toInt32, toSceOff, Bool.and_eq_true, decide_eq_true_eq] at h
      omega
    · simp only [Option.isSome_none, Bool.false_eq_true, false_iff]
      simp only [is_within_range, toInt32, toSceOff, Bool.and_eq_true, decide_eq_true_eq] at h
      omega

/-! ## Fill, then hit, when the fill is complete -/

/-- The slot after a fill on the reference backend that the device answers in
full: its base is the cursor, its buffer holds the device's bytes from the
cursor on, and the device's contents are as before. -/
theorem fill_on_disk (g : Globals) (k : Disk) (data : Buffer) (len : Int)
    (hfault : k.read_fault = none)
    (hmiss : get_hit_cache g k.cursor len = none)
    (hle : len ≤ g.g_cache.bufsize)
    (hC : 0 ≤ g.g_cache.bufsize)
    (hfull : k.cursor + g.g_cache.bufsize ≤ k.size) :
    (msstor_cache_read diskDriver g k data len).g.g_cache.pos = k.cursor
    ∧ (msstor_cache_read diskDriver g k data len).g.g_cache.bufsize = g.g_cache.bufsize
    ∧ (msstor_cache_read diskDriver g k data len).g.g_cache.buf
        = memcpy g.g_cache.buf (ptr_add k.content k.cursor) g.g_cache.bufsize
    ∧ (msstor_cache_read diskDriver g k data len).drv.content = k.content
    ∧ (msstor_cache_read diskDriver g k data len).drv.size = k.size
    ∧ (msstor_cache_read diskDriver g k data len).drv.read_fault = none := by
  have havail : max 0 (min g.g_cache.bufsize (k.size - (k.cursor + 0))) = g.g_cache.bufsize := by
    omega
  have hcur : Disk.lseek k 0 PSP_SEEK_CUR = ({ k with cursor := k.cursor + 0 }, k.cursor + 0) := by
    simp [Disk.lseek, PSP_SEEK_CUR, PSP_SEEK_SET]
  have hmiss0 : get_hit_cache g (k.cursor + 0) len = none := by simpa using hmiss
  simp only [msstor_cache_read, diskDriver, hcur, hmiss0, hle, if_true, Disk.read, hfault,
    Disk.avail, disable_cache, havail, ge_iff_le, hC]
  simp only [Disk.lseek, PSP_SEEK_SET, if_true]
  split <;> simp [hfault]

/-- A hit on the reference backend is a direct read, when the slot's buffer
holds the device's bytes of the whole range `[b, b + bufsize)`: for a read at
`pos1 >= b` with `pos1 + len1 < b + bufsize` (the sums not overflowing),
`msstor_cache_read` takes the hit branch and returns the count and the bytes
that the driver's read of `len1` bytes at `pos1` returns. -/
theorem hit_on_disk (g : Globals) (k : Disk) (data : Buffer) (len1 : Int)
    (hfault : k.read_fault = none)
    (hvalid : g.g_cache.pos ≠ -1)
    (hbuf : ∀ i : Int, 0 ≤ i → i < g.g_cache.bufsize →
      g.g_cache.buf i = k.content (g.g_cache.pos + i))
    (hsize : g.g_cache.pos + g.g_cache.bufsize ≤ k.size)
    (hCi : g.g_cache.bufsize < 2147483648)
    (hno32 : toInt32 g.g_cache.pos + g.g_cache.bufsize < 2147483648)
    (h64a : -9223372036854775808 ≤ g.g_cache.pos)
    (h64b : g.g_cache.pos + g.g_cache.bufsize < 9223372036854775808)
    (hlen1 : 0 ≤ len1)
    (hpos1 : g.g_cache.pos ≤ k.cursor)
    (hend1 : k.cursor + len1 < g.g_cache.pos + g.g_cache.bufsize) :
    (msstor_cache_read diskDriver g k data len1).path = Path.hit
    ∧ (msstor_cache_read diskDriver g k data len1).ret
        = (diskDriver.msstor_read k data len1).2.2
    ∧ (msstor_cache_read diskDriver g k data len1).data
        = (diskDriver.msstor_read k data len1).2.1 := by
  have hcur : Disk.lseek k 0 PSP_SEEK_CUR = ({ k with cursor := k.cursor + 0 }, k.cursor + 0) := by
    simp [Disk.lseek, PSP_SEEK_CUR, PSP_SEEK_SET]
  have hhit : get_hit_cache g (k.cursor + 0) len1 = some g.g_cache := by
    unfold get_hit_cache
    rw [if_pos hvalid, if_pos]
    simp only [is_within_range, toInt32, toSceOff, Bool.and_eq_true, decide_eq_true_eq]
    simp only [toInt32] at hno32
    omega
  have hrl : toInt32 (MIN len1 (toSceOff (toSceOff (g.g_cache.pos + g.g_cache.bufsize)
      - (k.cursor + 0)))) = len1 := by
    unfold MIN toSceOff toInt32
    split_ifs <;> omega
  have havail : max 0 (min len1 (k.size - k.cursor)) = len1 := by omega
  simp only [msstor_cache_read, diskDriver, hcur, hhit, hrl, Disk.read, hfault, Disk.avail,
    havail, true_and]
  funext i
  simp only [memcpy, ptr_add]
  split_ifs with hi
  · have h := hbuf (k.cursor + 0 - g.g_cache.pos + i) (by omega) (by omega)
    rw [h]
    congr 1
    omega
  · rfl

/-- Fill, then hit, on the reference backend. After a read at `pos0` that takes
the miss branch and whose fill the device answers in full (`pos0 + bufsize` does
not pass the end of the device), a read at `pos1` of `len1 >= 0` bytes with
`pos0 <= pos1` and `pos1 + len1 < pos0 + bufsize` takes the hit branch and returns
the count and the bytes of the driver's direct read of that range, provided
`pos0` is not `-1` and the sums do not overflow. -/
theorem fill_then_hit_full_fill (g : Globals) (k : Disk) (data0 data1 : Buffer)
    (len0 pos1 len1 : Int)
    (hfault : k.read_fault = none)
    (hmiss : get_hit_cache g k.cursor len0 = none)
    (hle : len0 ≤ g.g_cache.bufsize)
    (hfull : k.cursor + g.g_cache.bufsize ≤ k.size)
    (hvalid : k.cursor ≠ -1)
    (hCi : g.g_cache.bufsize < 2147483648)
    (hno32 : toInt32 k.cursor + g.g_cache.bufsize < 2147483648)
    (h64a : -9223372036854775808 ≤ k.cursor)
    (h64b : k.cursor + g.g_cache.bufsize < 9223372036854775808)
    (hlen1 : 0 ≤ len1)
    (hpos1 : k.cursor ≤ pos1)
    (hend1 : pos1 + len1 < k.cursor + g.g_cache.bufsize) :
    (msstor_cache_read diskDriver (msstor_cache_read diskDriver g k data0 len0).g
        { (msstor_cache_read diskDriver g k data0 len0).drv with cursor := pos1 }
        data1 len1).path = Path.hit
    ∧ (msstor_cache_read diskDriver (msstor_cache_read diskDriver g k data0 len0).g
        { (msstor_cache_read diskDriver g k data0 len0).drv with cursor := pos1 }
        data1 len1).ret
        = (diskDriver.msstor_read
            { (msstor_cache_read diskDriver g k data0 len0).drv with cursor := pos1 }
            data1 len1).2.2
    ∧ (msstor_cache_read diskDriver (msstor_cache_read diskDriver g k data0 len0).g
        { (msstor_cache_read diskDriver g k data0 len0).drv with cursor := pos1 }
        data1 len1).data
        = (diskDriver.msstor_read
            { (msstor_cache_read diskDriver g k data0 len0).drv with cursor := pos1 }
            data1 len1).2.1 := by
  have hC : 0 ≤ g.g_cache.bufsize := by omega
  obtain ⟨hp, hsz, hb, hcont, hsize, hfl⟩ :=
    fill_on_disk g k data0 len0 hfault hmiss hle hC hfull
  apply hit_on_disk
  · exact hfl
  · rw [hp]; exact hvalid
  · intro i hi0 hi1
    rw [hb, hp]
    simp only [hcont, memcpy, ptr_add]
    rw [hsz] at hi1
    rw [if_pos ⟨hi0, hi1⟩]
  · rw [hp, hsz]; simp only [hsize]; exact hfull
  · rw [hsz]; exact hCi
  · rw [hp, hsz]; exact hno32
  · rw [hp]; exact h64a
  · rw [hp, hsz]; exact h64b
  · exact hlen1
  · rw [hp]; exact hpos1
  · rw [hp, hsz]; exact hend1

/-- Fill, then hit, at a concrete input: on a 64 KiB device, 100 bytes are read
at offset 0 and then 40 bytes at offset 50. -/
theorem fill_then_hit_full_fill_example :
    (msstor_cache_read diskDriver
        (msstor_cache_read diskDriver (slotAt (-1)) (diskAt 65536 0) zeroBuf 100).g
        { (msstor_cache_read diskDriver (slotAt (-1)) (diskAt 65536 0) zeroBuf 100).drv
            with cursor := 50 }
        zeroBuf 40).path = Path.hit
    ∧ (msstor_cache_read diskDriver
        (msstor_cache_read diskDriver (slotAt (-1)) (diskAt 65536 0) zeroBuf 100).g
        { (msstor_cache_read diskDriver (slotAt (-1)) (diskAt 65536 0) zeroBuf 100).drv
            with cursor := 50 }
        zeroBuf 40).ret
        = (diskDriver.msstor_read
            { (msstor_cache_read diskDriver (slotAt (-1)) (diskAt 65536 0) zeroBuf 100).drv
                with cursor := 50 }
            zeroBuf 40).2.2 :=
  have h := fill_then_hit_full_fill (slotAt (-1)) (diskAt 65536 0) zeroBuf zeroBuf 100 50 40
    rfl (get_hit_cache_none_of_invalid _ _ _ rfl) (by decide) (by decide) (by decide)
    (by decide) (by decide) (by decide) (by decide) (by decide) (by decide) (by decide)
  ⟨h.1, h.2.1⟩

/-! ## The scenario of the specification -/

/-- The scenario with `C = 16384`: the read of 100 bytes at offset 0 is a miss
and fills `[0, 16384)`; the read of 40 bytes at offset 50 is a hit; the write of
5 bytes at offset 60 invalidates the slot; the read of 40 bytes at offset 50 is
a miss again and refills the slot from offset 50. -/
theorem spec_scenario :
    (msstor_cache_read diskDriver (slotAt (-1)) (diskAt 65536 0) zeroBuf 100).path = Path.miss
    ∧ (msstor_cache_read diskDriver (slotAt (-1)) (diskAt 65536 0) zeroBuf 100).g.g_cache.pos = 0
    ∧ (run diskDriver (slotAt (-1), diskAt 65536 0)
        [Op.read zeroBuf 100, Op.seek 50 PSP_SEEK_SET, Op.read zeroBuf 40]).1.read_hit = 40
    ∧ (run diskDriver (slotAt (-1), diskAt 65536 0)
        [Op.read zeroBuf 100, Op.seek 50 PSP_SEEK_SET, Op.read zeroBuf 40,
         Op.seek 60 PSP_SEEK_SET, Op.write zeroBuf 5]).1.g_cache.pos = -1
    ∧ (run diskDriver (slotAt (-1), diskAt 65536 0)
        [Op.read zeroBuf 100, Op.seek 50 PSP_SEEK_SET, Op.read zeroBuf 40,
         Op.seek 60 PSP_SEEK_SET, Op.write zeroBuf 5, Op.seek 50 PSP_SEEK_SET,
         Op.read zeroBuf 40]).1.read_missed = 140
    ∧ (run diskDriver (slotAt (-1), diskAt 65536 0)
        [Op.read zeroBuf 100, Op.seek 50 PSP_SEEK_SET, Op.read zeroBuf 40,
         Op.seek 60 PSP_SEEK_SET, Op.write zeroBuf 5, Op.seek 50 PSP_SEEK_SET,
         Op.read zeroBuf 40]).1.g_cache.pos = 50 := by
  decide

/-! ## Initialisation -/

/-- The function `msstor_init` is `msstor_init_with` at the two capacities of
the source. -/
theorem msstor_init_eq (env : InitEnv) (g : Globals) :
    msstor_init env g = msstor_init_with CACHE_BUFSIZE CACHE_BUFSIZE_GO env g := rfl

/-- What a return value of 0 tells about the environment and the globals. -/
theorem msstor_init_with_success (bufsize_std bufsize_go : Int) (env : InitEnv) (g : Globals)
    (h : (msstor_init_with bufsize_std bufsize_go env g).ret = 0) :
    Int.tmod (init_bufsize bufsize_std bufsize_go env) 512 = 0
    ∧ 0 ≤ env.sceKernelAllocPartitionMemory (init_bufsize bufsize_std bufsize_go env + 64)
    ∧ env.sceKernelGetBlockHeadAddr
        (env.sceKernelAllocPartitionMemory (init_bufsize bufsize_std bufsize_go env + 64)) ≠ 0
    ∧ env.sctrlHENFindDriver (init_driver_name env) = true
    ∧ (msstor_init_with bufsize_std bufsize_go env g).g.g_cache.pos = -1
    ∧ (msstor_init_with bufsize_std bufsize_go env g).g.g_cache.bufsize
        = init_bufsize bufsize_std bufsize_go env
    ∧ (msstor_init_with bufsize_std bufsize_go env g).hooked = some (init_driver_name env) := by
  have e : (if env.psp_model = env.PSP_GO then bufsize_go else bufsize_std)
      = init_bufsize bufsize_std bufsize_go env := rfl
  have e2 : (if env.psp_model = env.PSP_GO ∧ env.sctrlKernelBootFrom = 80 then "eflash0a0f1p"
      else "msstor0p") = init_driver_name env := rfl
  simp only [msstor_init_with, e, e2] at h ⊢
  by_cases h1 : Int.tmod (init_bufsize bufsize_std bufsize_go env) 512 = 0
  · by_cases h2 : env.sceKernelAllocPartitionMemory (init_bufsize bufsize_std bufsize_go env + 64) < 0
    · simp [h1, h2] at h
    · by_cases h3 : env.sceKernelGetBlockHeadAddr
          (env.sceKernelAllocPartitionMemory (init_bufsize bufsize_std bufsize_go env + 64)) = 0
      · simp [h1, h2, h3] at h
      · by_cases h4 : env.sctrlHENFindDriver (init_driver_name env) = false
        · simp [h1, h2, h3, h4] at h
        · simp only [Bool.not_eq_false] at h4
          simp [h1, h2, h3, h4, not_lt.mp h2]
  · simp [h1] at h

/-- The capacity the source chooses is 8192 or 16384. -/
theorem init_bufsize_source (env : InitEnv) :
    init_bufsize CACHE_BUFSIZE CACHE_BUFSIZE_GO env = 8192
    ∨ init_bufsize CACHE_BUFSIZE CACHE_BUFSIZE_GO env = 16384 := by
  unfold init_bufsize CACHE_BUFSIZE CACHE_BUFSIZE_GO
  split_ifs
  · left; rfl
  · right; rfl

/-- The capacity the source chooses is a multiple of `0x200`. -/
theorem init_bufsize_source_aligned (env : InitEnv) :
    Int.tmod (init_bufsize CACHE_BUFSIZE CACHE_BUFSIZE_GO env) 512 = 0 := by
  rcases init_bufsize_source env with h | h <;> rw [h] <;> decide

/-- The return codes of the initialisation for any values of the two capacity
constants: `-1` for a capacity that is not a multiple of `0x200`, then `-2` for
a negative block id, `-3` for a `NULL` block address, `-4` for a driver that is
not found, and 0 when nothing of this happens. -/
theorem msstor_init_with_codes (bufsize_std bufsize_go : Int) (env : InitEnv) (g : Globals) :
    (Int.tmod (init_bufsize bufsize_std bufsize_go env) 512 ≠ 0 →
        (msstor_init_with bufsize_std bufsize_go env g).ret = -1)
    ∧ (Int.tmod (init_bufsize bufsize_std bufsize_go env) 512 = 0 →
        env.sceKernelAllocPartitionMemory (init_bufsize bufsize_std bufsize_go env + 64) < 0 →
        (msstor_init_with bufsize_std bufsize_go env g).ret = -2)
    ∧ (Int.tmod (init_bufsize bufsize_std bufsize_go env) 512 = 0 →
        0 ≤ env.sceKernelAllocPartitionMemory (init_bufsize bufsize_std bufsize_go env + 64) →
        env.sceKernelGetBlockHeadAddr
            (env.sceKernelAllocPartitionMemory (init_bufsize bufsize_std bufsize_go env + 64)) = 0 →
        (msstor_init_with bufsize_std bufsize_go env g).ret = -3)
    ∧ (Int.tmod (init_bufsize bufsize_std bufsize_go env) 512 = 0 →
        0 ≤ env.sceKernelAllocPartitionMemory (init_bufsize bufsize_std bufsize_go env + 64) →
        env.sceKernelGetBlockHeadAddr
            (env.sceKernelAllocPartitionMemory (init_bufsize bufsize_std bufsize_go env + 64)) ≠ 0 →
        env.sctrlHENFindDriver (init_driver_name env) = false →
        (msstor_init_with bufsize_std bufsize_go env g).ret = -4)
    ∧ (Int.tmod (init_bufsize bufsize_std bufsize_go env) 512 = 0 →
        0 ≤ env.sceKernelAllocPartitionMemory (init_bufsize bufsize_std bufsize_go env + 64) →
        env.sceKernelGetBlockHeadAddr
            (env.sceKernelAllocPartitionMemory (init_bufsize bufsize_std bufsize_go env + 64)) ≠ 0 →
        env.sctrlHENFindDriver (init_driver_name env) = true →
        (msstor_init_with bufsize_std bufsize_go env g).ret = 0) := by
  have e : (if env.psp_model = env.PSP_GO then bufsize_go else bufsize_std)
      = init_bufsize bufsize_std bufsize_go env := rfl
  have e2 : (if env.psp_model = env.PSP_GO ∧ env.sctrlKernelBootFrom = 80 then "eflash0a0f1p"
      else "msstor0p") = init_driver_name env := rfl
  refine ⟨?_, ?_, ?_, ?_, ?_⟩
  · intro h
    simp only [msstor_init_with, e]
    rw [if_pos h]
  · intro h1 h2
    simp only [msstor_init_with, e]
    simp [h1, h2]
  · intro h1 h2 h3
    simp only [msstor_init_with, e]
    simp [h1, not_lt.mpr h2, h3]
  · intro h1 h2 h3 h4
    simp only [msstor_init_with, e, e2]
    simp [h1, not_lt.mpr h2, h3, h4]
  · intro h1 h2 h3 h4
    simp only [msstor_init_with, e, e2]
    simp [h1, not_lt.mpr h2, h3, h4]

/-- When the initialisation does not return 0, no driver entry is replaced. -/
theorem msstor_init_with_failure (bufsize_std bufsize_go : Int) (env : InitEnv) (g : Globals)
    (h : (msstor_init_with bufsize_std bufsize_go env g).ret ≠ 0) :
    (msstor_init_with bufsize_std bufsize_go env g).hooked = none := by
  have e : (if env.psp_model = env.PSP_GO then bufsize_go else bufsize_std)
      = init_bufsize bufsize_std bufsize_go env := rfl
  have e2 : (if env.psp_model = env.PSP_GO ∧ env.sctrlKernelBootFrom = 80 then "eflash0a0f1p"
      else "msstor0p") = init_driver_name env := rfl
  simp only [msstor_init_with, e, e2] at h ⊢
  by_cases h1 : Int.tmod (init_bufsize bufsize_std bufsize_go env) 512 = 0
  · by_cases h2 : env.sceKernelAllocPartitionMemory (init_bufsize bufsize_std bufsize_go env + 64) < 0
    · simp [h1, h2]
    · by_cases h3 : env.sceKernelGetBlockHeadAddr
          (env.sceKernelAllocPartitionMemory (init_bufsize bufsize_std bufsize_go env + 64)) = 0
      · simp [h1, h2, h3]
      · by_cases h4 : env.sctrlHENFindDriver (init_driver_name env) = false
        · simp [h1, h2, h3, h4]
        · simp only [Bool.not_eq_false] at h4
          simp [h1, h2, h3, h4] at h
  · simp [h1]

/-- C11. The initialisation contract of `msstor_init`.  It returns 0 only if the
capacity chosen is a multiple of `0x200`, the allocation succeeded (a block id
that is not negative and a block address that is not `NULL`) and the driver was
found, and it does return 0 then.  A failed allocation yields `-2` (no block) or
`-3` (no address), a driver that is not found `-4`, and a capacity that is not a
multiple of `0x200` yields `-1`: the codes are negative and those of one kind
are not those of another.  The capacities of the source, 8192 and 16384, always
pass the alignment check, so its code is also stated for the same function with
any values `bufsize_std` and `bufsize_go` in place of the two constants, of
which `msstor_init` is the instance at `CACHE_BUFSIZE` and `CACHE_BUFSIZE_GO`.
Whenever `msstor_init` returns 0 the slot is invalid (`pos = -1`), `bufsize` is
the capacity chosen, a positive multiple of 512, and the read and write entries
of the driver looked up are replaced; when it returns anything else no entry is
replaced. -/
theorem msstor_init_contract (bufsize_std bufsize_go : Int) (env : InitEnv) (g : Globals) :
    ((msstor_init env g).ret = 0 →
        Int.tmod (init_bufsize CACHE_BUFSIZE CACHE_BUFSIZE_GO env) 512 = 0
        ∧ 0 ≤ env.sceKernelAllocPartitionMemory
            (init_bufsize CACHE_BUFSIZE CACHE_BUFSIZE_GO env + 64)
        ∧ env.sceKernelGetBlockHeadAddr
            (env.sceKernelAllocPartitionMemory
              (init_bufsize CACHE_BUFSIZE CACHE_BUFSIZE_GO env + 64)) ≠ 0
        ∧ env.sctrlHENFindDriver (init_driver_name env) = true
        ∧ (msstor_init env g).g.g_cache.pos = -1
        ∧ (msstor_init env g).g.g_cache.bufsize = init_bufsize CACHE_BUFSIZE CACHE_BUFSIZE_GO env
        ∧ 0 < (msstor_init env g).g.g_cache.bufsize
        ∧ (msstor_init env g).g.g_cache.bufsize % 512 = 0
        ∧ (msstor_init env g).hooked = some (init_driver_name env))
    ∧ (env.sceKernelAllocPartitionMemory
          (init_bufsize CACHE_BUFSIZE CACHE_BUFSIZE_GO env + 64) < 0 →
        (msstor_init env g).ret = -2)
    ∧ (0 ≤ env.sceKernelAllocPartitionMemory
          (init_bufsize CACHE_BUFSIZE CACHE_BUFSIZE_GO env + 64) →
        env.sceKernelGetBlockHeadAddr
          (env.sceKernelAllocPartitionMemory
            (init_bufsize CACHE_BUFSIZE CACHE_BUFSIZE_GO env + 64)) = 0 →
        (msstor_init env g).ret = -3)
    ∧ (0 ≤ env.sceKernelAllocPartitionMemory
          (init_bufsize CACHE_BUFSIZE CACHE_BUFSIZE_GO env + 64) →
        env.sceKernelGetBlockHeadAddr
          (env.sceKernelAllocPartitionMemory
            (init_bufsize CACHE_BUFSIZE CACHE_BUFSIZE_GO env + 64)) ≠ 0 →
        env.sctrlHENFindDriver (init_driver_name env) = false →
        (msstor_init env g).ret = -4)
    ∧ (0 ≤ env.sceKernelAllocPartitionMemory
          (init_bufsize CACHE_BUFSIZE CACHE_BUFSIZE_GO env + 64) →
        env.sceKernelGetBlockHeadAddr
          (env.sceKernelAllocPartitionMemory
            (init_bufsize CACHE_BUFSIZE CACHE_BUFSIZE_GO env + 64)) ≠ 0 →
        env.sctrlHENFindDriver (init_driver_name env) = true →
        (msstor_init env g).ret = 0)
    ∧ ((msstor_init env g).ret = 0 ∨ (msstor_init env g).ret = -2
        ∨ (msstor_init env g).ret = -3 ∨ (msstor_init env g).ret = -4)
    ∧ ((msstor_init env g).ret ≠ 0 → (msstor_init env g).hooked = none)
    ∧ msstor_init env g = msstor_init_with CACHE_BUFSIZE CACHE_BUFSIZE_GO env g
    ∧ (Int.tmod (init_bufsize bufsize_std bufsize_go env) 512 ≠ 0 →
        (msstor_init_with bufsize_std bufsize_go env g).ret = -1)
    ∧ ((msstor_init_with bufsize_std bufsize_go env g).ret = 0 →
        Int.tmod (init_bufsize bufsize_std bufsize_go env) 512 = 0) := by
  have hal := init_bufsize_source_aligned env
  have hc := msstor_init_with_codes CACHE_BUFSIZE CACHE_BUFSIZE_GO env g
  have hg := msstor_init_with_codes bufsize_std bufsize_go env g
  refine ⟨?_, ?_, ?_, ?_, ?_, ?_, ?_, rfl, hg.1, ?_⟩
  · intro h
    rw [msstor_init_eq] at h ⊢
    obtain ⟨a, b, c, d, hp, hb, hh⟩ :=
      msstor_init_with_success CACHE_BUFSIZE CACHE_BUFSIZE_GO env g h
    refine ⟨a, b, c, d, hp, hb, ?_, ?_, hh⟩
    · rw [hb]
      rcases init_bufsize_source env with h8 | h16
      · rw [h8]; decide
      · rw [h16]; decide
    · rw [hb]
      rcases init_bufsize_source env with h8 | h16
      · rw [h8]; decide
      · rw [h16]; decide
  · intro h
    rw [msstor_init_eq]
    exact hc.2.1 hal h
  · intro h1 h2
    rw [msstor_init_eq]
    exact hc.2.2.1 hal h1 h2
  · intro h1 h2 h3
    rw [msstor_init_eq]
    exact hc.2.2.2.1 hal h1 h2 h3
  · intro h1 h2 h3
    rw [msstor_init_eq]
    exact hc.2.2.2.2 hal h1 h2 h3
  · rw [msstor_init_eq]
    by_cases h1 : env.sceKernelAllocPartitionMemory
        (init_bufsize CACHE_BUFSIZE CACHE_BUFSIZE_GO env + 64) < 0
    · exact Or.inr (Or.inl (hc.2.1 hal h1))
    · by_cases h2 : env.sceKernelGetBlockHeadAddr
          (env.sceKernelAllocPartitionMemory
            (init_bufsize CACHE_BUFSIZE CACHE_BUFSIZE_GO env + 64)) = 0
      · exact Or.inr (Or.inr (Or.inl (hc.2.2.1 hal (not_lt.mp h1) h2)))
      · cases h3 : env.sctrlHENFindDriver (init_driver_name env)
        · exact Or.inr (Or.inr (Or.inr (hc.2.2.2.1 hal (not_lt.mp h1) h2 h3)))
        · exact Or.inl (hc.2.2.2.2 hal (not_lt.mp h1) h2 h3)
  · intro h
    rw [msstor_init_eq] at h ⊢
    exact msstor_init_with_failure CACHE_BUFSIZE CACHE_BUFSIZE_GO env g h
  · intro h
    exact (msstor_init_with_success bufsize_std bufsize_go env g h).1

/-- C11 at concrete inputs.  In an environment where everything succeeds
`msstor_init` returns 0 and leaves an invalid slot of 16384 bytes; when the
allocator returns a negative block id it returns `-2`; when the block has no
address it returns `-3`; when no driver is registered it returns `-4`; and with
a capacity of 1000 bytes in place of `CACHE_BUFSIZE` the alignment check fails
with `-1`. -/
theorem msstor_init_contract_witness :
    ((msstor_init envOK (g_static envOK.memory)).ret = 0
      ∧ (msstor_init envOK (g_static envOK.memory)).g.g_cache.pos = -1
      ∧ (msstor_init envOK (g_static envOK.memory)).g.g_cache.bufsize = 16384
      ∧ (msstor_init envOK (g_static envOK.memory)).hooked = some "msstor0p")
    ∧ (msstor_init { envOK with sceKernelAllocPartitionMemory := fun _ => -1 }
        (g_static envOK.memory)).ret = -2
    ∧ (msstor_init { envOK with sceKernelGetBlockHeadAddr := fun _ => 0 }
        (g_static envOK.memory)).ret = -3
    ∧ (msstor_init { envOK with sctrlHENFindDriver := fun _ => false }
        (g_static envOK.memory)).ret = -4
    ∧ (Int.tmod (init_bufsize 1000 CACHE_BUFSIZE_GO envOK) 512 ≠ 0
      ∧ (msstor_init_with 1000 CACHE_BUFSIZE_GO envOK (g_static envOK.memory)).ret = -1) :=
  have h := msstor_init_contract 1000 CACHE_BUFSIZE_GO envOK (g_static envOK.memory)
  have h0 := h.2.2.2.2.1 (by decide) (by decide) (by decide)
  have hs := h.1 h0
  ⟨⟨h0, hs.2.2.2.2.1, hs.2.2.2.2.2.1, hs.2.2.2.2.2.2.2.2⟩,
    (msstor_init_contract 1000 CACHE_BUFSIZE_GO
      { envOK with sceKernelAllocPartitionMemory := fun _ => -1 }
      (g_static envOK.memory)).2.1 (by decide),
    (msstor_init_contract 1000 CACHE_BUFSIZE_GO
      { envOK with sceKernelGetBlockHeadAddr := fun _ => 0 }
      (g_static envOK.memory)).2.2.1 (by decide) (by decide),
    (msstor_init_contract 1000 CACHE_BUFSIZE_GO
      { envOK with sctrlHENFindDriver := fun _ => false }
      (g_static envOK.memory)).2.2.2.1 (by decide) (by decide) (by decide),
    by decide, h.2.2.2.2.2.2.2.2.1 (by decide)⟩

/-! ## The empty report and the reset -/

/-- C12 as stated fails: with no byte requested yet the report is the line
`no msstor cache call yet`, which is not the line `no cache call yet`. -/
theorem msstor_stat_empty_text_differs :
    (slotAt (-1)).read_call = 0
    ∧ (msstor_stat (slotAt (-1)) 0).1 = "no msstor cache call yet\n"
    ∧ (msstor_stat (slotAt (-1)) 0).1 ≠ "no cache call yet\n"
    ∧ (msstor_stat (slotAt (-1)) 0).1 ≠ "no cache call yet" := by
  decide

/-- C12, as the code has it. For every state with `read_call = 0`, and with or
without reset, the text written by `msstor_stat` is exactly the single line
`no msstor cache call yet`, ended by a newline, and nothing else. -/
theorem msstor_stat_empty (g : Globals) (reset : Int) (h : g.read_call = 0) :
    (msstor_stat g reset).1 = "no msstor cache call yet\n" := by
  simp [msstor_stat, h]

/-- C12 at a concrete input: the slot holds `[0, 16384)`, no byte was requested
since the last reset, and the report is asked for with reset. -/
theorem msstor_stat_empty_witness :
    (slotAt 0).read_call = 0
    ∧ (msstor_stat (slotAt 0) 1).1 = "no msstor cache call yet\n" :=
  ⟨rfl, msstor_stat_empty (slotAt 0) 1 rfl⟩

/-- C13. For every state: `msstor_stat(reset)` with `reset != 0` leaves the four
counters zero; `msstor_stat(0)` leaves the globals, the four counters among
them, as they were; in both cases the slot (base, buffer, size) is unchanged;
and the text is the one a call without reset writes in the same state, so it
shows the counters as they were before the reset. -/
theorem msstor_stat_reset (g : Globals) (reset : Int) :
    (reset ≠ 0 →
        (msstor_stat g reset).2.read_call = 0 ∧ (msstor_stat g reset).2.read_hit = 0
        ∧ (msstor_stat g reset).2.read_missed = 0
        ∧ (msstor_stat g reset).2.read_uncacheable = 0)
    ∧ (msstor_stat g 0).2 = g
    ∧ (msstor_stat g reset).2.g_cache = g.g_cache
    ∧ (msstor_stat g reset).1 = (msstor_stat g 0).1 := by
  refine ⟨?_, ?_, ?_, ?_⟩
  · intro h
    simp [msstor_stat, h]
  · simp [msstor_stat]
  · simp only [msstor_stat]
    split_ifs <;> rfl
  · simp [msstor_stat]

/-- C13 at a concrete input: the report with reset after 50,000,000 requested
bytes shows the counters before the reset and leaves them zero. -/
theorem msstor_stat_reset_witness :
    ((1 : Int) ≠ 0)
    ∧ (msstor_stat busyCounters 1).2.read_call = 0
    ∧ (msstor_stat busyCounters 1).2.read_hit = 0
    ∧ (msstor_stat busyCounters 1).2.read_missed = 0
    ∧ (msstor_stat busyCounters 1).2.read_uncacheable = 0
    ∧ (msstor_stat busyCounters 1).2.g_cache = busyCounters.g_cache
    ∧ (msstor_stat busyCounters 1).1
        = "Mstor cache size: 16KB\nhit percent: 04%/10%/00%, [45000000/5000000/0/50000000]\ncaches stat:\nCache Pos: 0x00000000\n" :=
  have h := msstor_stat_reset busyCounters 1
  have h1 := h.1 (by decide)
  ⟨by decide, h1.1, h1.2.1, h1.2.2.1, h1.2.2.2, h.2.2.1, h.2.2.2.trans (by decide)⟩

/-! ## A successful fill -/

/-- The macro `MIN` is the smaller of its arguments. -/
theorem MIN_eq_min (a b : Int) : MIN a b = min a b := by
  unfold MIN
  split_ifs <;> omega

/-- C15. A read at cursor `pos` of `len <= bufsize` bytes that does not pass the
hit test and whose fill succeeds (the driver's one read of `bufsize` bytes into
the slot's buffer returns `n >= 0`) returns `min(len, n)`; the caller's buffer
receives the first `min(len, n)` bytes of what that read left in the slot's
buffer and is otherwise untouched; the slot has base `pos` (valid, `pos` not
being the marker `-1`), the buffer the read left and its size; the driver is
called three times, the seek that queries the position, the read, and the seek
to `pos + min(len, n)` (the 64-bit sum being exact); and `len` is added to
`read_missed`. -/
theorem successful_fill {σ : Type} (d : Driver σ) (g : Globals) (s : σ) (data : Buffer)
    (len pos n : Int)
    (hcur : (d.msstor_lseek s 0 PSP_SEEK_CUR).2 = pos)
    (hle : len ≤ g.g_cache.bufsize)
    (hmiss : get_hit_cache g pos len = none)
    (hn : (d.msstor_read (d.msstor_lseek s 0 PSP_SEEK_CUR).1 g.g_cache.buf
            g.g_cache.bufsize).2.2 = n)
    (hn0 : 0 ≤ n)
    (hsum : toSceOff (pos + min len n) = pos + min len n) :
    (msstor_cache_read (traced d) g (s, []) data len).path = Path.miss
    ∧ (msstor_cache_read (traced d) g (s, []) data len).ret = min len n
    ∧ (msstor_cache_read (traced d) g (s, []) data len).data
        = memcpy data
            (d.msstor_read (d.msstor_lseek s 0 PSP_SEEK_CUR).1 g.g_cache.buf
              g.g_cache.bufsize).2.1
            (min len n)
    ∧ (msstor_cache_read (traced d) g (s, []) data len).g.g_cache.pos = pos
    ∧ (msstor_cache_read (traced d) g (s, []) data len).g.g_cache.buf
        = (d.msstor_read (d.msstor_lseek s 0 PSP_SEEK_CUR).1 g.g_cache.buf
            g.g_cache.bufsize).2.1
    ∧ (msstor_cache_read (traced d) g (s, []) data len).g.g_cache.bufsize = g.g_cache.bufsize
    ∧ (msstor_cache_read (traced d) g (s, []) data len).drv.2
        = [Call.lseek 0 PSP_SEEK_CUR pos,
           Call.read g.g_cache.bufsize n,
           Call.lseek (pos + min len n) PSP_SEEK_SET
             (d.msstor_lseek
               (d.msstor_read (d.msstor_lseek s 0 PSP_SEEK_CUR).1 g.g_cache.buf
                 g.g_cache.bufsize).1
               (pos + min len n) PSP_SEEK_SET).2]
    ∧ (msstor_cache_read (traced d) g (s, []) data len).g.read_missed
        = toU32 (g.read_missed + len) := by
  have hge : n ≥ 0 := hn0
  simp [msstor_cache_read, hcur, hmiss, hle, hn, hge, disable_cache, MIN_eq_min, hsum]

/-- C15 at a concrete input: 100 bytes are read at offset 0 of a 64 KiB device,
the slot being invalid; the fill brings 16384 bytes. -/
theorem successful_fill_witness :
    ((100 : Int) ≤ (slotAt (-1)).g_cache.bufsize ∧ (0 : Int) ≤ 16384)
    ∧ (msstor_cache_read (traced diskDriver) (slotAt (-1)) (diskAt 65536 0, []) zeroBuf
        100).ret = 100
    ∧ (msstor_cache_read (traced diskDriver) (slotAt (-1)) (diskAt 65536 0, []) zeroBuf
        100).g.g_cache.pos = 0
    ∧ (msstor_cache_read (traced diskDriver) (slotAt (-1)) (diskAt 65536 0, []) zeroBuf
        100).drv.2
        = [Call.lseek 0 1 0, Call.read 16384 16384, Call.lseek 100 0 100]
    ∧ (msstor_cache_read (traced diskDriver) (slotAt (-1)) (diskAt 65536 0, []) zeroBuf
        100).g.read_missed = 100 :=
  have h := successful_fill diskDriver (slotAt (-1)) (diskAt 65536 0) zeroBuf 100 0 16384
    (by decide) (by decide) (get_hit_cache_none_of_invalid _ _ _ rfl) (by decide) (by decide)
    (by decide)
  ⟨⟨by decide, by decide⟩, h.2.1, h.2.2.2.1, h.2.2.2.2.2.2.1, h.2.2.2.2.2.2.2⟩

/-! ## The write test and the hit result beyond the `int` range -/

/-- C14. The first two conditions of the write test are evaluated on the
offsets converted to `int`: with the slot holding `[0, 16384)`, a write of 512
bytes at cursor `4294967808` (4 GiB + 512) invalidates the slot although the
slot was valid and none of the three conditions holds of the 64-bit values. -/
theorem write_test_aliases_4GiB :
    (diskDriver.msstor_lseek (diskAt 8589934592 4294967808) 0 PSP_SEEK_CUR).2 = 4294967808
    ∧ (slotAt 0).g_cache.pos ≠ -1
    ∧ ¬ ((slotAt 0).g_cache.pos ≤ 4294967808
          ∧ (4294967808 : Int) < (slotAt 0).g_cache.pos + (slotAt 0).g_cache.bufsize)
    ∧ ¬ ((slotAt 0).g_cache.pos ≤ 4294967808 + 512
          ∧ (4294967808 : Int) + 512 < (slotAt 0).g_cache.pos + (slotAt 0).g_cache.bufsize)
    ∧ ¬ ((4294967808 : Int) ≤ (slotAt 0).g_cache.pos
          ∧ (4294967808 : Int) + 512 ≥ (slotAt 0).g_cache.pos + (slotAt 0).g_cache.bufsize)
    ∧ (msstor_cache_write diskDriver (slotAt 0) (diskAt 8589934592 4294967808) zeroBuf
        512).g.g_cache.pos = -1 := by
  decide

/-- C16. A hit found on offsets that agree only after conversion to `int` does
not return `len`: with the slot holding `[0, 16384)`, the read of 512 bytes at
cursor `4294967296` (4 GiB) takes the hit branch, the count
`MIN(len, b + C - pos)` is negative, its conversion to `int` is 16384, and
`msstor_cache_read` returns 16384 and seeks to `pos + 16384`. -/
theorem hit_result_aliases_4GiB :
    (msstor_cache_read (traced diskDriver) (slotAt 0) (diskAt 8589934592 4294967296, [])
        zeroBuf 512).path = Path.hit
    ∧ MIN 512 ((slotAt 0).g_cache.pos + (slotAt 0).g_cache.bufsize - 4294967296) ≠ 512
    ∧ (msstor_cache_read (traced diskDriver) (slotAt 0) (diskAt 8589934592 4294967296, [])
        zeroBuf 512).ret = 16384
    ∧ (msstor_cache_read (traced diskDriver) (slotAt 0) (diskAt 8589934592 4294967296, [])
        zeroBuf 512).drv.2
        = [Call.lseek 0 PSP_SEEK_CUR 4294967296,
           Call.lseek 4294983680 PSP_SEEK_SET 4294983680] := by
  decide

/-- C17. When the `int` sum `(int)b + bufsize` overflows, the write test does not
fire: with the slot holding `[2147483136, 2147499520)` (its base 512 bytes below
2 GiB), a write of 512 bytes at cursor `2147483136`, inside the slot's range,
leaves the slot valid. -/
theorem write_inside_kept_at_2GiB :
    (diskDriver.msstor_lseek (diskAt 4294967296 2147483136) 0 PSP_SEEK_CUR).2 = 2147483136
    ∧ (slotAt 2147483136).g_cache.pos ≠ -1
    ∧ ((0 : Int) < 512
        ∧ (2147483136 : Int) < (slotAt 2147483136).g_cache.pos + (slotAt 2147483136).g_cache.bufsize
        ∧ (2147483136 : Int) + 512 > (slotAt 2147483136).g_cache.pos)
    ∧ (msstor_cache_write diskDriver (slotAt 2147483136) (diskAt 4294967296 2147483136) zeroBuf
        512).g.g_cache.pos = 2147483136 := by
  decide

/-- C18. A hit found on offsets that agree only after conversion to `int` copies
more than `len` bytes: with the slot holding `[0, 16384)`, the read of 512 bytes
at cursor `4294968320` (4 GiB + 1024) takes the hit branch with
`pos - b + len > bufsize`, copies 15360 bytes, and changes the caller's buffer at
offset 1000, beyond the 512 bytes asked for. -/
theorem hit_copy_exceeds_len :
    (msstor_cache_read diskDriver (slotAt 0) (diskAt 8589934592 4294968320) zeroBuf
        512).path = Path.hit
    ∧ ¬ ((4294968320 : Int) - (slotAt 0).g_cache.pos + 512 ≤ (slotAt 0).g_cache.bufsize)
    ∧ (msstor_cache_read diskDriver (slotAt 0) (diskAt 8589934592 4294968320) zeroBuf
        512).ret = 15360
    ∧ ((512 : Int) ≤ 1000 ∧ zeroBuf 1000 = 0)
    ∧ (msstor_cache_read diskDriver (slotAt 0) (diskAt 8589934592 4294968320) zeroBuf
        512).data 1000 = 170 := by
  decide

/-! ## The write test and the hit result within the `int` range -/

/-- Whatever the slot and the driver, `msstor_cache_write` returns the driver
write's result as it is, the write being issued after the invalidation in the
state the seek left; it changes no counter, and it leaves the slot's buffer and
size alone. -/
theorem msstor_cache_write_frame {σ : Type} (d : Driver σ) (g : Globals) (s : σ)
    (data : Buffer) (len : Int) :
    (msstor_cache_write d g s data len).ret
        = (d.msstor_write (d.msstor_lseek s 0 PSP_SEEK_CUR).1 data len).2
    ∧ (msstor_cache_write d g s data len).drv
        = (d.msstor_write (d.msstor_lseek s 0 PSP_SEEK_CUR).1 data len).1
    ∧ (msstor_cache_write d g s data len).g.read_call = g.read_call
    ∧ (msstor_cache_write d g s data len).g.read_hit = g.read_hit
    ∧ (msstor_cache_write d g s data len).g.read_missed = g.read_missed
    ∧ (msstor_cache_write d g s data len).g.read_uncacheable = g.read_uncacheable
    ∧ (msstor_cache_write d g s data len).g.g_cache.buf = g.g_cache.buf
    ∧ (msstor_cache_write d g s data len).g.g_cache.bufsize = g.g_cache.bufsize := by
  have hc := disable_cache_within_range_counters g (d.msstor_lseek s 0 PSP_SEEK_CUR).2 len
  have hb := disable_cache_within_range_bufsize g (d.msstor_lseek s 0 PSP_SEEK_CUR).2 len
  refine ⟨rfl, rfl, hc.1, hc.2.1, hc.2.2.1, hc.2.2.2, ?_, hb⟩
  simp only [msstor_cache_write]
  rcases disable_cache_within_range_cases g (d.msstor_lseek s 0 PSP_SEEK_CUR).2 len with h | h
    <;> simp [h, disable_cache]

/-- While the offsets and the end of the slot's range are `int` values, the
write test is the three-part test on the 64-bit values: after
`msstor_cache_write` at cursor `pos` the slot is invalid exactly when it was
invalid before or `b <= pos < b + C`, or `b <= pos + len < b + C`, or
`pos <= b` and `pos + len >= b + C`; in every other case the globals are
unchanged. -/
theorem write_three_part_test_of_int {σ : Type} (d : Driver σ) (g : Globals) (s : σ)
    (data : Buffer) (pos len : Int)
    (hcur : (d.msstor_lseek s 0 PSP_SEEK_CUR).2 = pos)
    (hC : 0 ≤ g.g_cache.bufsize)
    (hb : -2147483648 ≤ g.g_cache.pos)
    (hend : g.g_cache.pos + g.g_cache.bufsize < 2147483648)
    (hp0 : -2147483648 ≤ pos) (hp1 : pos < 2147483648)
    (hq0 : -2147483648 ≤ pos + len) (hq1 : pos + len < 2147483648) :
    ((msstor_cache_write d g s data len).g.g_cache.pos = -1
      ↔ g.g_cache.pos = -1
        ∨ (g.g_cache.pos ≤ pos ∧ pos < g.g_cache.pos + g.g_cache.bufsize)
        ∨ (g.g_cache.pos ≤ pos + len ∧ pos + len < g.g_cache.pos + g.g_cache.bufsize)
        ∨ (pos ≤ g.g_cache.pos ∧ pos + len ≥ g.g_cache.pos + g.g_cache.bufsize))
    ∧ ((msstor_cache_write d g s data len).g.g_cache.pos ≠ -1 →
        (msstor_cache_write d g s data len).g = g) := by
  simp only [msstor_cache_write, hcur]
  rw [disable_cache_within_range_eq]
  have key : (g.g_cache.pos ≠ -1
      ∧ (is_within_range (toInt32 pos) (toInt32 g.g_cache.pos) g.g_cache.bufsize = true
        ∨ is_within_range (toInt32 (toSceOff (pos + len))) (toInt32 g.g_cache.pos)
            g.g_cache.bufsize = true
        ∨ (pos ≤ g.g_cache.pos
            ∧ toSceOff (pos + len) ≥ toSceOff (g.g_cache.pos + g.g_cache.bufsize))))
      ↔ (g.g_cache.pos ≠ -1
        ∧ ((g.g_cache.pos ≤ pos ∧ pos < g.g_cache.pos + g.g_cache.bufsize)
          ∨ (g.g_cache.pos ≤ pos + len ∧ pos + len < g.g_cache.pos + g.g_cache.bufsize)
          ∨ (pos ≤ g.g_cache.pos ∧ pos + len ≥ g.g_cache.pos + g.g_cache.bufsize))) := by
    simp only [is_within_range, toInt32, toSceOff, decide_eq_true_eq]
    omega
  split_ifs with h
  · have h2 := key.mp h
    refine ⟨?_, ?_⟩
    · simp only [disable_cache, true_iff]
      exact Or.inr h2.2
    · intro hne
      exact absurd rfl hne
  · refine ⟨?_, fun _ => rfl⟩
    constructor
    · intro hinv
      exact Or.inl hinv
    · intro hor
      by_contra hne
      apply h
      apply key.mpr
      refine ⟨hne, ?_⟩
      rcases hor with h1 | h1
      · exact absurd h1 hne
      · exact h1

/-- The slot the hit test returns is the slot. -/
theorem get_hit_cache_some (g : Globals) (pos len : Int) (cache : MsCache)
    (h : get_hit_cache g pos len = some cache) : cache = g.g_cache := by
  unfold get_hit_cache at h
  split_ifs at h
  exact (Option.some.inj h).symm

/-- While the offsets and the end of the slot's range are `int` values, a read
at cursor `pos` that takes the hit branch on a slot with base `b` has
`MIN(len, b + C - pos) = len`: it returns `len`, copies
`buffer[pos - b .. pos - b + len)` to the caller, the offsets copied lying within
`[0, C)`, seeks to `pos + len`, leaves the slot as it was and adds `len` to
`read_hit`. -/
theorem hit_result_of_int {σ : Type} (d : Driver σ) (g : Globals) (s : σ) (data : Buffer)
    (pos len : Int)
    (hcur : (d.msstor_lseek s 0 PSP_SEEK_CUR).2 = pos)
    (hhit : (msstor_cache_read (traced d) g (s, []) data len).path = Path.hit)
    (hC : 0 ≤ g.g_cache.bufsize) (hCi : g.g_cache.bufsize < 2147483648)
    (hb : -2147483648 ≤ g.g_cache.pos)
    (hend : g.g_cache.pos + g.g_cache.bufsize < 2147483648)
    (hp0 : -2147483648 ≤ pos) (hp1 : pos < 2147483648)
    (hq0 : -2147483648 ≤ pos + len) (hq1 : pos + len < 2147483648) :
    MIN len (g.g_cache.pos + g.g_cache.bufsize - pos) = len
    ∧ (0 ≤ pos - g.g_cache.pos ∧ pos - g.g_cache.pos + len ≤ g.g_cache.bufsize)
    ∧ (msstor_cache_read (traced d) g (s, []) data len).ret = len
    ∧ (msstor_cache_read (traced d) g (s, []) data len).data
        = memcpy data (ptr_add g.g_cache.buf (pos - g.g_cache.pos)) len
    ∧ (msstor_cache_read (traced d) g (s, []) data len).drv.2
        = [Call.lseek 0 PSP_SEEK_CUR pos,
           Call.lseek (pos + len) PSP_SEEK_SET
             (d.msstor_lseek (d.msstor_lseek s 0 PSP_SEEK_CUR).1 (pos + len) PSP_SEEK_SET).2]
    ∧ (msstor_cache_read (traced d) g (s, []) data len).g.g_cache = g.g_cache
    ∧ (msstor_cache_read (traced d) g (s, []) data len).g.read_hit
        = toU32 (g.read_hit + len) := by
  cases hc : get_hit_cache g pos len with
  | none =>
    exfalso
    simp only [msstor_cache_read, traced_lseek, hcur, hc] at hhit
    split_ifs at hhit
  | some cache =>
    have hcache := get_hit_cache_some g pos len cache hc
    subst hcache
    have hsome : (get_hit_cache g pos len).isSome = true := by simp [hc]
    have hr := (get_hit_cache_isSome_iff_of_int g pos len hC hb hend hp0 hp1 hq0 hq1).mp hsome
    have hmin : MIN len (g.g_cache.pos + g.g_cache.bufsize - pos) = len := by
      unfold MIN
      split_ifs <;> omega
    have hrl : toInt32 (MIN len (toSceOff (toSceOff (g.g_cache.pos + g.g_cache.bufsize) - pos)))
        = len := by
      unfold MIN toSceOff toInt32
      split_ifs <;> omega
    have hsk : toSceOff (pos + len) = pos + len := by
      unfold toSceOff
      omega
    refine ⟨hmin, ⟨by omega, by omega⟩, ?_⟩
    simp [msstor_cache_read, hcur, hc, hrl, hsk]

/-- On the miss branch the count copied out of the slot's buffer, `MIN(len, n)`,
is at most `len`, and at most `bufsize` when the driver returns no more than the
`bufsize` bytes it was asked for. -/
theorem miss_copy_in_bounds (g : Globals) (len n : Int) (hn : n ≤ g.g_cache.bufsize) :
    MIN len n ≤ len ∧ MIN len n ≤ g.g_cache.bufsize := by
  unfold MIN
  split_ifs <;> omega

end MsstorCache
